import Mathlib

/-!
Verification development for the XOR neural network of `xorGate.py`.

The network state (`XORNeuralNetwork`) carries a learning rate, three
weight vectors of exactly three real components each, and two metric
history lists.  Floating-point numbers of the source are modelled as
real numbers.  The five methods of the source class are embedded as
state-passing functions; `train` additionally returns, as ghost
instrumentation, the list of verbose flags it passed to each epoch it
ran, in order.  A second embedding over raw `List ℝ` weight vectors
(`XORNeuralNetworkL`) mirrors the source's index accesses with
fallible `List.get?` lookups, to state the in-bounds claims.
-/

noncomputable section

/-- An ordered triple of reals: one weight vector `[v0, v1, v2]` of the
source, where component 0 is the bias. -/
@[ext]
structure Vec3 where
  v0 : ℝ
  v1 : ℝ
  v2 : ℝ

/-- The state of the source class `XORNeuralNetwork`: learning rate,
three weight vectors, and the two metric histories. -/
@[ext]
structure XORNeuralNetwork where
  learning_rate : ℝ
  w_hidden_1 : Vec3
  w_hidden_2 : Vec3
  w_output : Vec3
  errors : List ℝ
  accuracies : List ℝ

namespace XORNeuralNetwork

/-- `sigmoid(x) = 1 / (1 + exp(-max(min(x, 709), -709)))`, the
numerically stabilized logistic activation of the source. -/
def sigmoid (x : ℝ) : ℝ :=
  1 / (1 + Real.exp (-(max (min x 709) (-709))))

/-- `forward_pass`: returns
`(o_output, o_hidden_1, o_hidden_2, y_hidden_1, y_hidden_2)`. -/
def forward_pass (self : XORNeuralNetwork) (x_input : ℝ × ℝ) :
    ℝ × ℝ × ℝ × ℝ × ℝ :=
  let y_hidden_1 := self.w_hidden_1.v0 + x_input.1 * self.w_hidden_1.v1 +
    x_input.2 * self.w_hidden_1.v2
  let o_hidden_1 := sigmoid y_hidden_1
  let y_hidden_2 := self.w_hidden_2.v0 + x_input.1 * self.w_hidden_2.v1 +
    x_input.2 * self.w_hidden_2.v2
  let o_hidden_2 := sigmoid y_hidden_2
  let y_output := self.w_output.v0 + o_hidden_1 * self.w_output.v1 +
    o_hidden_2 * self.w_output.v2
  let o_output := sigmoid y_output
  (o_output, o_hidden_1, o_hidden_2, y_hidden_1, y_hidden_2)

/-- `train_step`: one backpropagation step on a single example.  The
output-layer weights are updated first and the hidden errors then read
the already-updated `w_output[1]`, `w_output[2]`, exactly as in the
source.  The `verbose` flag only controls printing in the source and
has no effect on the computed state.  Returns the updated state and
`error_output ** 2`. -/
def train_step (self : XORNeuralNetwork) (x_input : ℝ × ℝ) (target : ℝ)
    (verbose : Bool) : XORNeuralNetwork × ℝ :=
  let f := forward_pass self x_input
  let o_output := f.1
  let o_hidden_1 := f.2.1
  let o_hidden_2 := f.2.2.1
  let error_output := target - o_output
  let gradient_output := error_output * o_output * (1 - o_output)
  let w_output_0 := self.w_output.v0 + self.learning_rate * gradient_output
  let w_output_1 := self.w_output.v1 + self.learning_rate * gradient_output * o_hidden_1
  let w_output_2 := self.w_output.v2 + self.learning_rate * gradient_output * o_hidden_2
  let error_hidden_1 := gradient_output * w_output_1
  let error_hidden_2 := gradient_output * w_output_2
  let gradient_hidden_1 := error_hidden_1 * o_hidden_1 * (1 - o_hidden_1)
  let gradient_hidden_2 := error_hidden_2 * o_hidden_2 * (1 - o_hidden_2)
  ({ self with
      w_hidden_1 := Vec3.mk
        (self.w_hidden_1.v0 + self.learning_rate * gradient_hidden_1)
        (self.w_hidden_1.v1 + self.learning_rate * gradient_hidden_1 * x_input.1)
        (self.w_hidden_1.v2 + self.learning_rate * gradient_hidden_1 * x_input.2)
      w_hidden_2 := Vec3.mk
        (self.w_hidden_2.v0 + self.learning_rate * gradient_hidden_2)
        (self.w_hidden_2.v1 + self.learning_rate * gradient_hidden_2 * x_input.1)
        (self.w_hidden_2.v2 + self.learning_rate * gradient_hidden_2 * x_input.2)
      w_output := Vec3.mk w_output_0 w_output_1 w_output_2 },
    error_output ^ 2)

/-- Variant of `train_step` that follows the specification's step 4
literally: the hidden errors are computed from the output weights as
they stood *before* the output-layer update.  Used to compare the
specified backward pass against the source's. -/
def train_step_preupdate (self : XORNeuralNetwork) (x_input : ℝ × ℝ) (target : ℝ)
    (verbose : Bool) : XORNeuralNetwork × ℝ :=
  let f := forward_pass self x_input
  let o_output := f.1
  let o_hidden_1 := f.2.1
  let o_hidden_2 := f.2.2.1
  let error_output := target - o_output
  let gradient_output := error_output * o_output * (1 - o_output)
  let w_output_0 := self.w_output.v0 + self.learning_rate * gradient_output
  let w_output_1 := self.w_output.v1 + self.learning_rate * gradient_output * o_hidden_1
  let w_output_2 := self.w_output.v2 + self.learning_rate * gradient_output * o_hidden_2
  let error_hidden_1 := gradient_output * self.w_output.v1
  let error_hidden_2 := gradient_output * self.w_output.v2
  let gradient_hidden_1 := error_hidden_1 * o_hidden_1 * (1 - o_hidden_1)
  let gradient_hidden_2 := error_hidden_2 * o_hidden_2 * (1 - o_hidden_2)
  ({ self with
      w_hidden_1 := Vec3.mk
        (self.w_hidden_1.v0 + self.learning_rate * gradient_hidden_1)
        (self.w_hidden_1.v1 + self.learning_rate * gradient_hidden_1 * x_input.1)
        (self.w_hidden_1.v2 + self.learning_rate * gradient_hidden_1 * x_input.2)
      w_hidden_2 := Vec3.mk
        (self.w_hidden_2.v0 + self.learning_rate * gradient_hidden_2)
        (self.w_hidden_2.v1 + self.learning_rate * gradient_hidden_2 * x_input.1)
        (self.w_hidden_2.v2 + self.learning_rate * gradient_hidden_2 * x_input.2)
      w_output := Vec3.mk w_output_0 w_output_1 w_output_2 },
    error_output ^ 2)

/-- Variant of `train_step` presented in the amended specification
shape: the output-layer update of step 3 is applied, the updated
output weights are snapshotted, and step 4 computes the hidden errors
from that post-update snapshot. -/
def train_step_postsnapshot (self : XORNeuralNetwork) (x_input : ℝ × ℝ) (target : ℝ)
    (verbose : Bool) : XORNeuralNetwork × ℝ :=
  let f := forward_pass self x_input
  let o_output := f.1
  let o_hidden_1 := f.2.1
  let o_hidden_2 := f.2.2.1
  let error_output := target - o_output
  let gradient_output := error_output * o_output * (1 - o_output)
  let w_output_new := Vec3.mk
    (self.w_output.v0 + self.learning_rate * gradient_output)
    (self.w_output.v1 + self.learning_rate * gradient_output * o_hidden_1)
    (self.w_output.v2 + self.learning_rate * gradient_output * o_hidden_2)
  let snapshot_1 := w_output_new.v1
  let snapshot_2 := w_output_new.v2
  let error_hidden_1 := gradient_output * snapshot_1
  let error_hidden_2 := gradient_output * snapshot_2
  let gradient_hidden_1 := error_hidden_1 * o_hidden_1 * (1 - o_hidden_1)
  let gradient_hidden_2 := error_hidden_2 * o_hidden_2 * (1 - o_hidden_2)
  ({ self with
      w_hidden_1 := Vec3.mk
        (self.w_hidden_1.v0 + self.learning_rate * gradient_hidden_1)
        (self.w_hidden_1.v1 + self.learning_rate * gradient_hidden_1 * x_input.1)
        (self.w_hidden_1.v2 + self.learning_rate * gradient_hidden_1 * x_input.2)
      w_hidden_2 := Vec3.mk
        (self.w_hidden_2.v0 + self.learning_rate * gradient_hidden_2)
        (self.w_hidden_2.v1 + self.learning_rate * gradient_hidden_2 * x_input.1)
        (self.w_hidden_2.v2 + self.learning_rate * gradient_hidden_2 * x_input.2)
      w_output := w_output_new },
    error_output ^ 2)

/-- The fixed XOR training set, in the order of the source. -/
def training_data : List ((ℝ × ℝ) × ℝ) :=
  [((0, 0), 0), ((0, 1), 1), ((1, 0), 1), ((1, 1), 0)]

/-- Loop body of `train_epoch`: run the training step on one example,
accumulate its squared error, recompute the example's prediction with
the post-update weights and count it if correct.  State is
`(net, total_error, correct_predictions)`. -/
def epochBody (verbose : Bool) (st : XORNeuralNetwork × ℝ × ℕ)
    (ex : (ℝ × ℝ) × ℝ) : XORNeuralNetwork × ℝ × ℕ :=
  let r := train_step st.1 ex.1 ex.2 verbose
  let prediction : ℝ := if (forward_pass r.1 ex.1).1 > 1 / 2 then 1 else 0
  (r.1, st.2.1 + r.2, if prediction = ex.2 then st.2.2 + 1 else st.2.2)

/-- `train_epoch`: one pass over the four XOR examples; returns the
updated state, the mean squared error and the accuracy. -/
def train_epoch (self : XORNeuralNetwork) (verbose : Bool) :
    XORNeuralNetwork × ℝ × ℝ :=
  let r := training_data.foldl (epochBody verbose) (self, 0, 0)
  (r.1, r.2.1 / (training_data.length : ℝ), (r.2.2 : ℝ) / (training_data.length : ℝ))

/-- Append an epoch's `(mse, accuracy)` to the history lists: the
`self.errors.append(mse)` / `self.accuracies.append(accuracy)` pair of
statements in `train`. -/
def appendMetrics (r : XORNeuralNetwork × ℝ × ℝ) : XORNeuralNetwork :=
  { r.1 with
    errors := r.1.errors ++ [r.2.1],
    accuracies := r.1.accuracies ++ [r.2.2] }

/-- Recursive worker for `train`: `epoch` is the current 0-indexed
epoch number, the last argument the number of epochs still allowed.
Returns the final state and the list of verbose flags passed to the
epochs that actually ran, in order. -/
def trainGo (threshold : ℝ) : XORNeuralNetwork → ℕ → ℕ →
    XORNeuralNetwork × List Bool
  | self, _, 0 => (self, [])
  | self, epoch, rem + 1 =>
    let verbose := epoch % 1000 == 0
    let r := train_epoch self verbose
    if r.2.2 ≥ threshold then (appendMetrics r, [verbose])
    else
      let w := trainGo threshold (appendMetrics r) (epoch + 1) rem
      (w.1, verbose :: w.2)

/-- `train`: run up to `epochs` epochs with early stopping once an
epoch's accuracy reaches `threshold`. -/
def train (self : XORNeuralNetwork) (epochs : ℕ) (threshold : ℝ) :
    XORNeuralNetwork × List Bool :=
  trainGo threshold self 0 epochs

/-- `evaluate`: a forward pass on each canonical input; returns the
state unchanged together with the printed rows
`(x1, x2, target, output)`. -/
def evaluate (self : XORNeuralNetwork) :
    XORNeuralNetwork × List (ℝ × ℝ × ℝ × ℝ) :=
  (self, [((0 : ℝ), (0 : ℝ)), (0, 1), (1, 0), (1, 1)].map fun p =>
    (p.1, p.2, if p.1 ≠ p.2 then (1 : ℝ) else 0, (forward_pass self p).1))

/-- One epoch followed by appending its metrics to the histories: the
per-epoch state transition of `train` without the stopping test. -/
def epochStep (self : XORNeuralNetwork) : XORNeuralNetwork :=
  appendMetrics (train_epoch self false)

/-- The state reached after `n` epochs of training without early
stopping. -/
def afterEpochs (self : XORNeuralNetwork) : ℕ → XORNeuralNetwork
  | 0 => self
  | n + 1 => epochStep (afterEpochs self n)

/-- The accuracy that epoch `j` (0-indexed) returns when training from
`self`: epochs before the first stopping epoch coincide with the
unstopped trajectory. -/
def accAt (self : XORNeuralNetwork) (j : ℕ) : ℝ :=
  (train_epoch (afterEpochs self j) false).2.2

end XORNeuralNetwork

/-- The network state over raw list-valued weight vectors, mirroring
the numpy arrays of the source without a length invariant. -/
structure XORNeuralNetworkL where
  learning_rate : ℝ
  w_hidden_1 : List ℝ
  w_hidden_2 : List ℝ
  w_output : List ℝ
  errors : List ℝ
  accuracies : List ℝ

namespace XORNeuralNetworkL

/-- `forward_pass` over list weight vectors: every index access of the
source becomes a fallible `List.get?` lookup; returns `none` exactly
when some access is out of bounds.  The state is threaded through and
returned unchanged. -/
noncomputable def forward_passL (self : XORNeuralNetworkL) (x_input : List ℝ) :
    Option (XORNeuralNetworkL × (ℝ × ℝ × ℝ × ℝ × ℝ)) := do
  let a0 ← self.w_hidden_1.get? 0
  let a1 ← self.w_hidden_1.get? 1
  let a2 ← self.w_hidden_1.get? 2
  let b0 ← self.w_hidden_2.get? 0
  let b1 ← self.w_hidden_2.get? 1
  let b2 ← self.w_hidden_2.get? 2
  let c0 ← self.w_output.get? 0
  let c1 ← self.w_output.get? 1
  let c2 ← self.w_output.get? 2
  let x0 ← x_input.get? 0
  let x1 ← x_input.get? 1
  let y_hidden_1 := a0 + x0 * a1 + x1 * a2
  let o_hidden_1 := XORNeuralNetwork.sigmoid y_hidden_1
  let y_hidden_2 := b0 + x0 * b1 + x1 * b2
  let o_hidden_2 := XORNeuralNetwork.sigmoid y_hidden_2
  let y_output := c0 + o_hidden_1 * c1 + o_hidden_2 * c2
  let o_output := XORNeuralNetwork.sigmoid y_output
  pure (self, (o_output, o_hidden_1, o_hidden_2, y_hidden_1, y_hidden_2))

/-- `train_step` over list weight vectors: each `+=` of the source is
a fallible read followed by a `List.set`; the hidden errors read the
output weight list after its update, as the source does. -/
noncomputable def train_stepL (self : XORNeuralNetworkL) (x_input : List ℝ) (target : ℝ)
    (verbose : Bool) : Option (XORNeuralNetworkL × ℝ) := do
  let fr ← forward_passL self x_input
  let o_output := fr.2.1
  let o_hidden_1 := fr.2.2.1
  let o_hidden_2 := fr.2.2.2.1
  let x0 ← x_input.get? 0
  let x1 ← x_input.get? 1
  let error_output := target - o_output
  let gradient_output := error_output * o_output * (1 - o_output)
  let c0 ← self.w_output.get? 0
  let wo0 := self.w_output.set 0 (c0 + self.learning_rate * gradient_output)
  let c1 ← wo0.get? 1
  let wo1 := wo0.set 1 (c1 + self.learning_rate * gradient_output * o_hidden_1)
  let c2 ← wo1.get? 2
  let wo2 := wo1.set 2 (c2 + self.learning_rate * gradient_output * o_hidden_2)
  let w1post ← wo2.get? 1
  let w2post ← wo2.get? 2
  let error_hidden_1 := gradient_output * w1post
  let error_hidden_2 := gradient_output * w2post
  let gradient_hidden_1 := error_hidden_1 * o_hidden_1 * (1 - o_hidden_1)
  let gradient_hidden_2 := error_hidden_2 * o_hidden_2 * (1 - o_hidden_2)
  let a0 ← self.w_hidden_1.get? 0
  let wa0 := self.w_hidden_1.set 0 (a0 + self.learning_rate * gradient_hidden_1)
  let a1 ← wa0.get? 1
  let wa1 := wa0.set 1 (a1 + self.learning_rate * gradient_hidden_1 * x0)
  let a2 ← wa1.get? 2
  let wa2 := wa1.set 2 (a2 + self.learning_rate * gradient_hidden_1 * x1)
  let b0 ← self.w_hidden_2.get? 0
  let wb0 := self.w_hidden_2.set 0 (b0 + self.learning_rate * gradient_hidden_2)
  let b1 ← wb0.get? 1
  let wb1 := wb0.set 1 (b1 + self.learning_rate * gradient_hidden_2 * x0)
  let b2 ← wb1.get? 2
  let wb2 := wb1.set 2 (b2 + self.learning_rate * gradient_hidden_2 * x1)
  pure ({ self with w_hidden_1 := wa2, w_hidden_2 := wb2, w_output := wo2 },
    error_output ^ 2)

end XORNeuralNetworkL

open XORNeuralNetwork

/-- An all-zero-weight network with the given learning rate and
histories: a convenient concrete state. -/
def zNet (lr : ℝ) (e a : List ℝ) : XORNeuralNetwork :=
  ⟨lr, ⟨0, 0, 0⟩, ⟨0, 0, 0⟩, ⟨0, 0, 0⟩, e, a⟩

/-- Zero-weight network with learning rate 0 and empty histories. -/
def netZero : XORNeuralNetwork := zNet 0 [] []

/-- Zero-weight network with learning rate 1: the two backward-pass
conventions visibly disagree after one step from here. -/
def netOne : XORNeuralNetwork := zNet 1 [] []

/-- Zero-weight, zero-learning-rate network with one fabricated
history entry already recorded. -/
def netPre : XORNeuralNetwork := zNet 0 [0] [0]

/-- All-zero list-weight network. -/
def lNetZero : XORNeuralNetworkL := ⟨0, [0, 0, 0], [0, 0, 0], [0, 0, 0], [], []⟩

/-- A crafted network state: hidden unit 1 is a saturated OR gate,
hidden unit 2 a saturated AND gate, and the output unit classifies
rows (0,0), (0,1), (1,0) with a margin of about 15 while sitting about
0.15 above the decision boundary on row (1,1).  Training from here
stops early at epoch 1. -/
def netC2 : XORNeuralNetwork :=
  ⟨1 / 4, ⟨-20, 40, 40⟩, ⟨-60, 40, 40⟩, ⟨-15, 30, -297 / 20⟩, [], []⟩

namespace XORNeuralNetwork

/-- Hidden unit 1 pre-activation of the forward pass. -/
def yh1 (self : XORNeuralNetwork) (x : ℝ × ℝ) : ℝ :=
  self.w_hidden_1.v0 + x.1 * self.w_hidden_1.v1 + x.2 * self.w_hidden_1.v2

/-- Hidden unit 2 pre-activation of the forward pass. -/
def yh2 (self : XORNeuralNetwork) (x : ℝ × ℝ) : ℝ :=
  self.w_hidden_2.v0 + x.1 * self.w_hidden_2.v1 + x.2 * self.w_hidden_2.v2

/-- Hidden unit 1 activation. -/
def oh1 (self : XORNeuralNetwork) (x : ℝ × ℝ) : ℝ := sigmoid (yh1 self x)

/-- Hidden unit 2 activation. -/
def oh2 (self : XORNeuralNetwork) (x : ℝ × ℝ) : ℝ := sigmoid (yh2 self x)

/-- Output pre-activation. -/
def yout (self : XORNeuralNetwork) (x : ℝ × ℝ) : ℝ :=
  self.w_output.v0 + oh1 self x * self.w_output.v1 + oh2 self x * self.w_output.v2

/-- Output activation. -/
def oout (self : XORNeuralNetwork) (x : ℝ × ℝ) : ℝ := sigmoid (yout self x)

/-- Output gradient `(target - o) * o * (1 - o)` of the training step. -/
def gout (self : XORNeuralNetwork) (x : ℝ × ℝ) (t : ℝ) : ℝ :=
  (t - oout self x) * oout self x * (1 - oout self x)

/-- `w_output[1]` after the output-layer update of the training step. -/
def c1post (self : XORNeuralNetwork) (x : ℝ × ℝ) (t : ℝ) : ℝ :=
  self.w_output.v1 + self.learning_rate * gout self x t * oh1 self x

/-- `w_output[2]` after the output-layer update of the training step. -/
def c2post (self : XORNeuralNetwork) (x : ℝ × ℝ) (t : ℝ) : ℝ :=
  self.w_output.v2 + self.learning_rate * gout self x t * oh2 self x

/-- Hidden unit 1 gradient of the training step (computed, as in the
source, from the post-update output weight `w_output[1]`). -/
def gh1 (self : XORNeuralNetwork) (x : ℝ × ℝ) (t : ℝ) : ℝ :=
  gout self x t * c1post self x t * oh1 self x * (1 - oh1 self x)

/-- Hidden unit 2 gradient of the training step. -/
def gh2 (self : XORNeuralNetwork) (x : ℝ × ℝ) (t : ℝ) : ℝ :=
  gout self x t * c2post self x t * oh2 self x * (1 - oh2 self x)

/-- Coarse state box that holds at every step of the two-epoch run of
`train` from `netC2`: the hidden weights stay within `1/1000` of their
initial values and the output weights inside loose windows. -/
def GBox (n : XORNeuralNetwork) : Prop :=
  n.learning_rate = 1 / 4 ∧
  -20.001 ≤ n.w_hidden_1.v0 ∧ n.w_hidden_1.v0 ≤ -19.999 ∧
  39.999 ≤ n.w_hidden_1.v1 ∧ n.w_hidden_1.v1 ≤ 40.001 ∧
  39.999 ≤ n.w_hidden_1.v2 ∧ n.w_hidden_1.v2 ≤ 40.001 ∧
  -60.001 ≤ n.w_hidden_2.v0 ∧ n.w_hidden_2.v0 ≤ -59.999 ∧
  39.999 ≤ n.w_hidden_2.v1 ∧ n.w_hidden_2.v1 ≤ 40.001 ∧
  39.999 ≤ n.w_hidden_2.v2 ∧ n.w_hidden_2.v2 ≤ 40.001 ∧
  -15.07 ≤ n.w_output.v0 ∧ n.w_output.v0 ≤ -14.99 ∧
  29.93 ≤ n.w_output.v1 ∧ n.w_output.v1 ≤ 30.001 ∧
  -14.92 ≤ n.w_output.v2 ∧ n.w_output.v2 ≤ -14.84

/-- Fine state box holding after epoch 0 of the run of `train` from
`netC2`. -/
def Box1 (n : XORNeuralNetwork) : Prop :=
  n.learning_rate = 1 / 4 ∧
  -20.0006 ≤ n.w_hidden_1.v0 ∧ n.w_hidden_1.v0 ≤ -19.9994 ∧
  39.9994 ≤ n.w_hidden_1.v1 ∧ n.w_hidden_1.v1 ≤ 40.0006 ∧
  39.9994 ≤ n.w_hidden_1.v2 ∧ n.w_hidden_1.v2 ≤ 40.0006 ∧
  -60.0006 ≤ n.w_hidden_2.v0 ∧ n.w_hidden_2.v0 ≤ -59.9994 ∧
  39.9994 ≤ n.w_hidden_2.v1 ∧ n.w_hidden_2.v1 ≤ 40.0006 ∧
  39.9994 ≤ n.w_hidden_2.v2 ∧ n.w_hidden_2.v2 ≤ 40.0006 ∧
  -15.0352 ≤ n.w_output.v0 ∧ n.w_output.v0 ≤ -15.0317 ∧
  29.9648 ≤ n.w_output.v1 ∧ n.w_output.v1 ≤ 29.9684 ∧
  -14.8845 ≤ n.w_output.v2 ∧ n.w_output.v2 ≤ -14.8823

/-- The six hidden-weight components of `m` are within `e` of those of
`n`. -/
def HidDelta (n m : XORNeuralNetwork) (e : ℝ) : Prop :=
  |m.w_hidden_1.v0 - n.w_hidden_1.v0| ≤ e ∧
  |m.w_hidden_1.v1 - n.w_hidden_1.v1| ≤ e ∧
  |m.w_hidden_1.v2 - n.w_hidden_1.v2| ≤ e ∧
  |m.w_hidden_2.v0 - n.w_hidden_2.v0| ≤ e ∧
  |m.w_hidden_2.v1 - n.w_hidden_2.v1| ≤ e ∧
  |m.w_hidden_2.v2 - n.w_hidden_2.v2| ≤ e

/-- The three output-weight components of `m` are within `e` of those
of `n`. -/
def OutDelta (n m : XORNeuralNetwork) (e : ℝ) : Prop :=
  |m.w_output.v0 - n.w_output.v0| ≤ e ∧
  |m.w_output.v1 - n.w_output.v1| ≤ e ∧
  |m.w_output.v2 - n.w_output.v2| ≤ e

/-! ### Basic properties of the sigmoid -/

theorem sigmoid_pos (x : ℝ) : 0 < sigmoid x := by
  unfold sigmoid
  positivity

theorem sigmoid_lt_one (x : ℝ) : sigmoid x < 1 := by
  unfold sigmoid
  rw [div_lt_one (by positivity)]
  linarith [Real.exp_pos (-(max (min x 709) (-709)))]

theorem sigmoid_le_one (x : ℝ) : sigmoid x ≤ 1 :=
  le_of_lt (sigmoid_lt_one x)

theorem sigmoid_nonneg (x : ℝ) : 0 ≤ sigmoid x :=
  le_of_lt (sigmoid_pos x)

theorem sigmoid_zero : sigmoid 0 = 1 / 2 := by
  unfold sigmoid
  norm_num

theorem sigmoid_mono : Monotone sigmoid := by
  intro a b hab
  unfold sigmoid
  have hclamp : max (min a 709) (-709) ≤ max (min b 709) (-709) :=
    max_le_max (min_le_min hab le_rfl) le_rfl
  have hexp : Real.exp (-(max (min b 709) (-709))) ≤
      Real.exp (-(max (min a 709) (-709))) :=
    Real.exp_le_exp.mpr (by linarith)
  have hpos : (0 : ℝ) < 1 + Real.exp (-(max (min b 709) (-709))) := by
    positivity
  apply one_div_le_one_div_of_le
  · positivity
  · linarith

theorem sigmoid_lt_half (x : ℝ) (hx : x < 0) : sigmoid x < 1 / 2 := by
  unfold sigmoid
  have hcl : max (min x 709) (-709) < 0 := by
    have h1 : min x 709 < 0 := lt_of_le_of_lt (min_le_left _ _) hx
    exact max_lt h1 (by norm_num)
  have h2 : (1 : ℝ) < Real.exp (-(max (min x 709) (-709))) := by
    rw [show (1 : ℝ) = Real.exp 0 by simp]
    exact Real.exp_lt_exp.mpr (by linarith)
  rw [div_lt_div_iff (by positivity) (by norm_num)]
  linarith

theorem half_lt_sigmoid (x : ℝ) (hx : 0 < x) : 1 / 2 < sigmoid x := by
  unfold sigmoid
  have hcl : 0 < max (min x 709) (-709) := by
    rcases le_or_lt x 709 with h | h
    · have : min x 709 = x := min_eq_left h
      rw [this]
      exact lt_max_of_lt_left hx
    · have : min x 709 = 709 := min_eq_right (le_of_lt h)
      rw [this]
      norm_num
  have h2 : Real.exp (-(max (min x 709) (-709))) < 1 := by
    rw [show (1 : ℝ) = Real.exp 0 by simp]
    exact Real.exp_lt_exp.mpr (by linarith)
  rw [div_lt_div_iff (by norm_num) (by positivity)]
  linarith

/-- Upper saturation bound: if `x ≤ -c` with `0 ≤ c ≤ 709` then
`sigmoid x ≤ exp (-c)`. -/
theorem sigmoid_le_exp_neg {x c : ℝ} (hc : 0 ≤ c) (hc709 : c ≤ 709)
    (hx : x ≤ -c) : sigmoid x ≤ Real.exp (-c) := by
  unfold sigmoid
  have hmin : min x 709 = x := min_eq_left (by linarith)
  have hcl : max (min x 709) (-709) ≤ -c := by
    rw [hmin]
    exact max_le hx (by linarith)
  have hexp : Real.exp c ≤ Real.exp (-(max (min x 709) (-709))) :=
    Real.exp_le_exp.mpr (by linarith)
  have h1 : (1 : ℝ) / (1 + Real.exp (-(max (min x 709) (-709)))) ≤
      1 / Real.exp c := by
    apply one_div_le_one_div_of_le (Real.exp_pos c)
    linarith
  calc 1 / (1 + Real.exp (-(max (min x 709) (-709)))) ≤ 1 / Real.exp c := h1
    _ = Real.exp (-c) := by rw [Real.exp_neg]; ring

/-- Lower saturation bound: if `c ≤ x` with `0 ≤ c ≤ 709` then
`1 - exp (-c) ≤ sigmoid x`. -/
theorem one_sub_exp_le_sigmoid {x c : ℝ} (hc : 0 ≤ c) (hc709 : c ≤ 709)
    (hx : c ≤ x) : 1 - Real.exp (-c) ≤ sigmoid x := by
  unfold sigmoid
  have hcl : c ≤ max (min x 709) (-709) := by
    have : c ≤ min x 709 := le_min hx hc709
    exact le_trans this (le_max_left _ _)
  have hexp : Real.exp (-(max (min x 709) (-709))) ≤ Real.exp (-c) :=
    Real.exp_le_exp.mpr (by linarith)
  set u := Real.exp (-(max (min x 709) (-709))) with hu
  have hupos : 0 < u := Real.exp_pos _
  have key : 1 - u ≤ 1 / (1 + u) := by
    rw [le_div_iff (by linarith)]
    nlinarith [sq_nonneg u]
  calc 1 - Real.exp (-c) ≤ 1 - u := by linarith
    _ ≤ 1 / (1 + u) := key

/-- With no clamping (small argument), a rational upper bound from the
linear lower bound on the exponential. -/
theorem sigmoid_le_ratio {x b : ℝ} (hxb : x ≤ b) (hb1 : b ≤ 1)
    (hb0 : -1 ≤ b) : sigmoid x ≤ 1 / (2 - b) := by
  have h1 : sigmoid x ≤ sigmoid b := sigmoid_mono hxb
  have hmin : min b 709 = b := min_eq_left (by linarith)
  have hmax : max (min b 709) (-709) = b := by
    rw [hmin]; exact max_eq_left (by linarith)
  have hsig : sigmoid b = 1 / (1 + Real.exp (-b)) := by
    unfold sigmoid; rw [hmax]
  have hexp : 1 - b ≤ Real.exp (-b) := by
    have := Real.add_one_le_exp (-b)
    linarith
  have h2 : sigmoid b ≤ 1 / (2 - b) := by
    rw [hsig]
    apply one_div_le_one_div_of_le (by linarith)
    linarith
  linarith

/-- With no clamping (small argument), a rational lower bound from the
linear lower bound on the exponential. -/
theorem ratio_le_sigmoid {x a : ℝ} (hax : a ≤ x) (ha1 : a ≤ 1)
    (ha0 : 0 ≤ a) : (1 + a) / (2 + a) ≤ sigmoid x := by
  have h1 : sigmoid a ≤ sigmoid x := sigmoid_mono hax
  have hmin : min a 709 = a := min_eq_left (by linarith)
  have hmax : max (min a 709) (-709) = a := by
    rw [hmin]; exact max_eq_left (by linarith)
  have hsig : sigmoid a = 1 / (1 + Real.exp (-a)) := by
    unfold sigmoid; rw [hmax]
  have hexp : Real.exp (-a) ≤ 1 / (1 + a) := by
    have h := Real.add_one_le_exp a
    have hpos : (0 : ℝ) < 1 + a := by linarith
    have h2 : Real.exp (-a) = 1 / Real.exp a := by
      rw [Real.exp_neg]; ring
    rw [h2]
    apply one_div_le_one_div_of_le hpos
    linarith
  have hpos : (0 : ℝ) < 1 + a := by linarith
  have h4 : (1 + a) * Real.exp (-a) ≤ 1 := by
    have h5 : (1 + a) * Real.exp (-a) ≤ (1 + a) * (1 / (1 + a)) :=
      mul_le_mul_of_nonneg_left hexp (by linarith)
    have h6 : (1 + a) * (1 / (1 + a)) = 1 := by field_simp
    linarith
  have h3 : (1 + a) / (2 + a) ≤ 1 / (1 + Real.exp (-a)) := by
    rw [div_le_div_iff (by linarith) (by positivity)]
    nlinarith [Real.exp_pos (-a)]
  rw [hsig] at h1
  linarith

/-- `exp (-n) ≤ 1 / 2 ^ n`, since `2 ≤ e`. -/
theorem exp_neg_nat_le (n : ℕ) : Real.exp (-(n : ℝ)) ≤ 1 / 2 ^ n := by
  have h2e : (2 : ℝ) ≤ Real.exp 1 := by
    have := Real.add_one_le_exp (1 : ℝ)
    linarith
  have hpow : (2 : ℝ) ^ n ≤ Real.exp 1 ^ n :=
    pow_le_pow_left (by norm_num) h2e n
  have hexpn : Real.exp (n : ℝ) = Real.exp 1 ^ n := by
    rw [← Real.exp_nat_mul]
    norm_num
  have hpos : (0 : ℝ) < 2 ^ n := by positivity
  rw [Real.exp_neg, hexpn]
  rw [inv_eq_one_div]
  apply one_div_le_one_div_of_le hpos
  exact hpow

end XORNeuralNetwork

namespace XORNeuralNetwork

/-! ### Characterizations and frame facts of the embedded methods -/

theorem forward_pass_eq (self : XORNeuralNetwork) (x : ℝ × ℝ) :
    forward_pass self x = (oout self x, oh1 self x, oh2 self x, yh1 self x, yh2 self x) := rfl

theorem train_step_eq (self : XORNeuralNetwork) (x : ℝ × ℝ) (t : ℝ) (v : Bool) :
    train_step self x t v =
      ({ self with
          w_hidden_1 := Vec3.mk
            (self.w_hidden_1.v0 + self.learning_rate * gh1 self x t)
            (self.w_hidden_1.v1 + self.learning_rate * gh1 self x t * x.1)
            (self.w_hidden_1.v2 + self.learning_rate * gh1 self x t * x.2)
          w_hidden_2 := Vec3.mk
            (self.w_hidden_2.v0 + self.learning_rate * gh2 self x t)
            (self.w_hidden_2.v1 + self.learning_rate * gh2 self x t * x.1)
            (self.w_hidden_2.v2 + self.learning_rate * gh2 self x t * x.2)
          w_output := Vec3.mk
            (self.w_output.v0 + self.learning_rate * gout self x t)
            (c1post self x t) (c2post self x t) },
        (t - oout self x) ^ 2) := rfl

theorem train_step_learning_rate (self : XORNeuralNetwork) (x : ℝ × ℝ) (t : ℝ) (v : Bool) :
    (train_step self x t v).1.learning_rate = self.learning_rate := rfl

theorem train_step_errors (self : XORNeuralNetwork) (x : ℝ × ℝ) (t : ℝ) (v : Bool) :
    (train_step self x t v).1.errors = self.errors := rfl

theorem train_step_accuracies (self : XORNeuralNetwork) (x : ℝ × ℝ) (t : ℝ) (v : Bool) :
    (train_step self x t v).1.accuracies = self.accuracies := rfl

theorem train_step_verbose (self : XORNeuralNetwork) (x : ℝ × ℝ) (t : ℝ) (v : Bool) :
    train_step self x t v = train_step self x t false := rfl

theorem train_epoch_learning_rate (self : XORNeuralNetwork) (v : Bool) :
    (train_epoch self v).1.learning_rate = self.learning_rate := rfl

theorem train_epoch_errors (self : XORNeuralNetwork) (v : Bool) :
    (train_epoch self v).1.errors = self.errors := rfl

theorem train_epoch_accuracies (self : XORNeuralNetwork) (v : Bool) :
    (train_epoch self v).1.accuracies = self.accuracies := rfl

theorem epochBody_verbose (v : Bool) : epochBody v = epochBody false := by
  funext st ex
  unfold epochBody
  rw [train_step_verbose]

theorem train_epoch_verbose (self : XORNeuralNetwork) (v : Bool) :
    train_epoch self v = train_epoch self false := by
  unfold train_epoch
  rw [epochBody_verbose]

theorem appendMetrics_learning_rate (r : XORNeuralNetwork × ℝ × ℝ) :
    (appendMetrics r).learning_rate = r.1.learning_rate := rfl

theorem appendMetrics_w_hidden_1 (r : XORNeuralNetwork × ℝ × ℝ) :
    (appendMetrics r).w_hidden_1 = r.1.w_hidden_1 := rfl

theorem appendMetrics_w_hidden_2 (r : XORNeuralNetwork × ℝ × ℝ) :
    (appendMetrics r).w_hidden_2 = r.1.w_hidden_2 := rfl

theorem appendMetrics_w_output (r : XORNeuralNetwork × ℝ × ℝ) :
    (appendMetrics r).w_output = r.1.w_output := rfl

theorem appendMetrics_errors (r : XORNeuralNetwork × ℝ × ℝ) :
    (appendMetrics r).errors = r.1.errors ++ [r.2.1] := rfl

theorem appendMetrics_accuracies (r : XORNeuralNetwork × ℝ × ℝ) :
    (appendMetrics r).accuracies = r.1.accuracies ++ [r.2.2] := rfl

theorem trainGo_zero (t : ℝ) (self : XORNeuralNetwork) (epoch : ℕ) :
    trainGo t self epoch 0 = (self, []) := rfl

theorem trainGo_succ_pos {t : ℝ} {self : XORNeuralNetwork} {epoch rem : ℕ}
    (h : (train_epoch self (epoch % 1000 == 0)).2.2 ≥ t) :
    trainGo t self epoch (rem + 1) =
      (appendMetrics (train_epoch self (epoch % 1000 == 0)), [epoch % 1000 == 0]) := by
  rw [trainGo]
  exact if_pos h

theorem trainGo_succ_neg {t : ℝ} {self : XORNeuralNetwork} {epoch rem : ℕ}
    (h : ¬ (train_epoch self (epoch % 1000 == 0)).2.2 ≥ t) :
    trainGo t self epoch (rem + 1) =
      ((trainGo t (appendMetrics (train_epoch self (epoch % 1000 == 0))) (epoch + 1) rem).1,
        (epoch % 1000 == 0) ::
          (trainGo t (appendMetrics (train_epoch self (epoch % 1000 == 0))) (epoch + 1) rem).2) := by
  rw [trainGo]
  exact if_neg h

theorem trainGo_learning_rate (t : ℝ) :
    ∀ (rem : ℕ) (self : XORNeuralNetwork) (epoch : ℕ),
      (trainGo t self epoch rem).1.learning_rate = self.learning_rate := by
  intro rem
  induction rem with
  | zero => intro self epoch; rfl
  | succ rem ih =>
    intro self epoch
    by_cases h : (train_epoch self (epoch % 1000 == 0)).2.2 ≥ t
    · rw [trainGo_succ_pos h, appendMetrics_learning_rate,
        train_epoch_learning_rate]
    · rw [trainGo_succ_neg h]
      rw [ih, appendMetrics_learning_rate, train_epoch_learning_rate]

/-! ### Evaluation on all-zero networks with zero learning rate -/

theorem forward_pass_zNet (lr : ℝ) (e a : List ℝ) (x : ℝ × ℝ) :
    forward_pass (zNet lr e a) x = (1 / 2, 1 / 2, 1 / 2, 0, 0) := by
  simp [forward_pass, zNet, sigmoid_zero]

theorem train_step_zNet (e a : List ℝ) (x : ℝ × ℝ) (t : ℝ) (v : Bool) :
    train_step (zNet 0 e a) x t v = (zNet 0 e a, (t - 1 / 2) ^ 2) := by
  rw [train_step_eq]
  simp [zNet, gh1, gh2, gout, c1post, c2post, oout, yout, oh1, oh2, yh1, yh2,
    sigmoid_zero]

theorem train_epoch_zNet (e a : List ℝ) (v : Bool) :
    train_epoch (zNet 0 e a) v = (zNet 0 e a, 1 / 4, 1 / 2) := by
  simp only [train_epoch, training_data, List.foldl, epochBody, train_step_zNet,
    forward_pass_zNet]
  norm_num

theorem epochStep_zNet (e a : List ℝ) :
    epochStep (zNet 0 e a) = zNet 0 (e ++ [1 / 4]) (a ++ [1 / 2]) := by
  simp only [epochStep, train_epoch_zNet]
  simp [appendMetrics, zNet]

theorem accAt_zNet (e a : List ℝ) : accAt (zNet 0 e a) 0 = 1 / 2 := by
  simp [accAt, afterEpochs, train_epoch_zNet]

end XORNeuralNetwork

namespace XORNeuralNetworkL

/-- Whatever tuple `forward_passL` returns, it returns the state it
was given, unchanged. -/
theorem forward_passL_state {self n : XORNeuralNetworkL} {x : List ℝ}
    {r : ℝ × ℝ × ℝ × ℝ × ℝ} (h : forward_passL self x = some (n, r)) :
    n = self := by
  unfold forward_passL at h
  obtain ⟨a0, -, h⟩ := Option.bind_eq_some.mp h
  obtain ⟨a1, -, h⟩ := Option.bind_eq_some.mp h
  obtain ⟨a2, -, h⟩ := Option.bind_eq_some.mp h
  obtain ⟨b0, -, h⟩ := Option.bind_eq_some.mp h
  obtain ⟨b1, -, h⟩ := Option.bind_eq_some.mp h
  obtain ⟨b2, -, h⟩ := Option.bind_eq_some.mp h
  obtain ⟨c0, -, h⟩ := Option.bind_eq_some.mp h
  obtain ⟨c1, -, h⟩ := Option.bind_eq_some.mp h
  obtain ⟨c2, -, h⟩ := Option.bind_eq_some.mp h
  obtain ⟨x0, -, h⟩ := Option.bind_eq_some.mp h
  obtain ⟨x1, -, h⟩ := Option.bind_eq_some.mp h
  have h' := Option.some.inj h
  exact (congrArg Prod.fst h').symm

theorem forward_passL_lNetZero :
    forward_passL lNetZero [0, 0] =
      some (lNetZero, (1 / 2, 1 / 2, 1 / 2, 0, 0)) := by
  simp [forward_passL, lNetZero, List.get?, XORNeuralNetwork.sigmoid_zero]

end XORNeuralNetworkL

open XORNeuralNetwork XORNeuralNetworkL

/-- Claim C1, counterexample: starting from the all-zero network with
learning rate 1, one training step on example `((0,0), 0)` produces
hidden bias `1/512`, whereas computing the hidden errors from the
pre-update output weights (as the claim states) would leave it `0`.
So the backward pass does not use the pre-update output weights. -/
theorem claim_C1_counterexample :
    (train_step netOne (0, 0) 0 false).1.w_hidden_1.v0 = 1 / 512 ∧
    (train_step_preupdate netOne (0, 0) 0 false).1.w_hidden_1.v0 = 0 ∧
    (1 : ℝ) / 512 ≠ 0 := by
  refine ⟨?_, ?_, by norm_num⟩
  · rw [train_step_eq]
    show netOne.w_hidden_1.v0 + netOne.learning_rate * gh1 netOne (0, 0) 0 = 1 / 512
    norm_num [netOne, zNet, gh1, gout, c1post, oout, yout, oh1, oh2, yh1, yh2,
      sigmoid_zero]
  · norm_num [train_step_preupdate, forward_pass, netOne, zNet, sigmoid_zero]

/-- Claim C1, amended: in every training step the error back-propagated
to each hidden unit equals `output_gradient` multiplied by the
*post-update* output weight for that unit, i.e. `w_output[1]`,
`w_output[2]` as they stand after the step-3 output-layer update:
`train_step` coincides with the 7-step presentation that snapshots the
output weights right after updating them. -/
theorem claim_C1_theorem (self : XORNeuralNetwork) (x : ℝ × ℝ) (t : ℝ) (v : Bool) :
    train_step self x t v = train_step_postsnapshot self x t v := rfl

/-- Claim C5: the clamped sigmoid maps every real into `(0, 1)`, sends
`0` to `1/2`, and is monotone. -/
theorem claim_C5_theorem :
    (∀ x : ℝ, sigmoid x ∈ Set.Ioo (0 : ℝ) 1) ∧
    sigmoid 0 = 1 / 2 ∧ Monotone sigmoid :=
  ⟨fun x => ⟨sigmoid_pos x, sigmoid_lt_one x⟩, sigmoid_zero, sigmoid_mono⟩

/-- Claim C7: the forward pass is deterministic and pure: two calls on
the same state and input return the same five-component tuple, and the
returned state is the unchanged input state (in particular learning
rate, all three weight vectors and both metric histories are
untouched). -/
theorem claim_C7_theorem (self : XORNeuralNetworkL) (x : List ℝ)
    (n₁ n₂ : XORNeuralNetworkL) (r₁ r₂ : ℝ × ℝ × ℝ × ℝ × ℝ)
    (h₁ : forward_passL self x = some (n₁, r₁))
    (h₂ : forward_passL self x = some (n₂, r₂)) :
    r₁ = r₂ ∧ n₁ = self ∧ n₂ = self ∧
    n₁.learning_rate = self.learning_rate ∧
    n₁.w_hidden_1 = self.w_hidden_1 ∧ n₁.w_hidden_2 = self.w_hidden_2 ∧
    n₁.w_output = self.w_output ∧
    n₁.errors = self.errors ∧ n₁.accuracies = self.accuracies := by
  have hn₁ : n₁ = self := forward_passL_state h₁
  have hn₂ : n₂ = self := forward_passL_state h₂
  have hr : r₁ = r₂ := by
    have h := h₁.symm.trans h₂
    have h' := Option.some.inj h
    exact congrArg Prod.snd h'
  subst hn₁
  exact ⟨hr, rfl, hn₂, rfl, rfl, rfl, rfl, rfl, rfl⟩

/-- Witness for claim C7 at the all-zero list network on input
`[0, 0]`. -/
theorem claim_C7_witness :
    ((1 : ℝ) / 2, (1 : ℝ) / 2, (1 : ℝ) / 2, (0 : ℝ), (0 : ℝ)) =
      ((1 : ℝ) / 2, (1 : ℝ) / 2, (1 : ℝ) / 2, (0 : ℝ), (0 : ℝ)) ∧
    lNetZero = lNetZero ∧ lNetZero = lNetZero ∧
    lNetZero.learning_rate = lNetZero.learning_rate ∧
    lNetZero.w_hidden_1 = lNetZero.w_hidden_1 ∧
    lNetZero.w_hidden_2 = lNetZero.w_hidden_2 ∧
    lNetZero.w_output = lNetZero.w_output ∧
    lNetZero.errors = lNetZero.errors ∧
    lNetZero.accuracies = lNetZero.accuracies :=
  claim_C7_theorem lNetZero [0, 0] lNetZero lNetZero _ _
    forward_passL_lNetZero forward_passL_lNetZero

/-- Claim C10: calling `train` with a maximum epoch count of 0 runs no
epochs: the state (weights and both histories) is returned unchanged
and no epoch flags are recorded. -/
theorem claim_C10_theorem (self : XORNeuralNetwork) (t : ℝ) :
    train self 0 t = (self, []) := rfl

/-- Claim C8: the learning rate is immutable: the training step, the
epoch and `train` all preserve it; `evaluate` returns the state
unchanged; and the forward pass returns its state unchanged, so only
the training step (and the operations built from it) can mutate the
weight vectors. -/
theorem claim_C8_theorem :
    (∀ (self : XORNeuralNetwork) (x : ℝ × ℝ) (t : ℝ) (v : Bool),
        (train_step self x t v).1.learning_rate = self.learning_rate) ∧
    (∀ (self : XORNeuralNetwork) (v : Bool),
        (train_epoch self v).1.learning_rate = self.learning_rate) ∧
    (∀ (self : XORNeuralNetwork) (E : ℕ) (t : ℝ),
        (train self E t).1.learning_rate = self.learning_rate) ∧
    (∀ self : XORNeuralNetwork, (evaluate self).1 = self) ∧
    (∀ (self n : XORNeuralNetworkL) (x : List ℝ) (r : ℝ × ℝ × ℝ × ℝ × ℝ),
        forward_passL self x = some (n, r) →
          n.learning_rate = self.learning_rate ∧
          n.w_hidden_1 = self.w_hidden_1 ∧ n.w_hidden_2 = self.w_hidden_2 ∧
          n.w_output = self.w_output) := by
  refine ⟨train_step_learning_rate, train_epoch_learning_rate,
    fun self E t => trainGo_learning_rate t E self 0, fun self => rfl,
    fun self n x r h => ?_⟩
  have hn : n = self := forward_passL_state h
  subst hn
  exact ⟨rfl, rfl, rfl, rfl⟩

/-- Witness for claim C8: its only hypothesis-guarded conjunct,
instantiated at the all-zero list network on input `[0, 0]`. -/
theorem claim_C8_witness :
    lNetZero.learning_rate = lNetZero.learning_rate ∧
    lNetZero.w_hidden_1 = lNetZero.w_hidden_1 ∧
    lNetZero.w_hidden_2 = lNetZero.w_hidden_2 ∧
    lNetZero.w_output = lNetZero.w_output :=
  claim_C8_theorem.2.2.2.2 lNetZero lNetZero [0, 0]
    (1 / 2, 1 / 2, 1 / 2, 0, 0) forward_passL_lNetZero

/-- Claim C9: on weight vectors of exactly three components and an
input of two, every index access of the forward pass and the training
step is in bounds: both return `some`, and the updated weight vectors
again have exactly three components. -/
theorem claim_C9_theorem (self : XORNeuralNetworkL) (x : List ℝ) (t : ℝ) (v : Bool)
    (h1 : self.w_hidden_1.length = 3) (h2 : self.w_hidden_2.length = 3)
    (h3 : self.w_output.length = 3) (hx : x.length = 2) :
    (forward_passL self x).isSome ∧
    (train_stepL self x t v).isSome ∧
    ∀ n e, train_stepL self x t v = some (n, e) →
      n.w_hidden_1.length = 3 ∧ n.w_hidden_2.length = 3 ∧
      n.w_output.length = 3 := by
  obtain ⟨a0, a1, a2, hA⟩ := List.length_eq_three.mp h1
  obtain ⟨b0, b1, b2, hB⟩ := List.length_eq_three.mp h2
  obtain ⟨c0, c1, c2, hC⟩ := List.length_eq_three.mp h3
  obtain ⟨x0, x1, hX⟩ := List.length_eq_two.mp hx
  obtain ⟨lr, wh1, wh2, wo, er, ac⟩ := self
  simp only at hA hB hC
  subst hA hB hC hX
  refine ⟨by simp [forward_passL, List.get?], ?_, ?_⟩
  · simp [train_stepL, forward_passL, List.get?]
  · intro n e h
    simp only [train_stepL, forward_passL, List.get?, Option.bind_eq_bind,
      Option.some_bind, Option.pure_def, Option.some.injEq, List.set] at h
    have hn := congrArg Prod.fst h
    dsimp only at hn
    rw [← hn]
    exact ⟨rfl, rfl, rfl⟩


/-- Witness for claim C9 at the all-zero list network. -/
theorem claim_C9_witness :
    (lNetZero.w_hidden_1.length = 3 ∧ lNetZero.w_hidden_2.length = 3 ∧
      lNetZero.w_output.length = 3 ∧ ([(0 : ℝ), 0]).length = 2) ∧
    ((forward_passL lNetZero [0, 0]).isSome ∧
      (train_stepL lNetZero [0, 0] 0 false).isSome ∧
      ∀ n e, train_stepL lNetZero [0, 0] 0 false = some (n, e) →
        n.w_hidden_1.length = 3 ∧ n.w_hidden_2.length = 3 ∧
        n.w_output.length = 3) :=
  ⟨⟨rfl, rfl, rfl, rfl⟩, claim_C9_theorem lNetZero [0, 0] 0 false rfl rfl rfl rfl⟩

/-- The correct-prediction counter of the epoch loop body grows by at
most one per example and never decreases. -/
theorem epochBody_correct_le (v : Bool) (st : XORNeuralNetwork × ℝ × ℕ)
    (ex : (ℝ × ℝ) × ℝ) :
    st.2.2 ≤ (epochBody v st ex).2.2 ∧ (epochBody v st ex).2.2 ≤ st.2.2 + 1 := by
  unfold epochBody
  dsimp only
  constructor <;> (split_ifs <;> omega)

/-- Over any example list, the correct-prediction counter grows by at
most the list length. -/
theorem foldl_correct_le (v : Bool) (l : List ((ℝ × ℝ) × ℝ)) :
    ∀ st, (List.foldl (epochBody v) st l).2.2 ≤ st.2.2 + l.length := by
  induction l with
  | nil => intro st; simp
  | cons ex l ih =>
    intro st
    rw [List.foldl_cons]
    have h1 := ih (epochBody v st ex)
    have h2 := (epochBody_correct_le v st ex).2
    simp only [List.length_cons]
    omega

/-- Claim C6: each epoch's accuracy is `correct_count / 4` with
`correct_count ≤ 4`, hence one of `{0, 1/4, 1/2, 3/4, 1}`. -/
theorem claim_C6_theorem (self : XORNeuralNetwork) (v : Bool) :
    (∃ c : ℕ, c ≤ 4 ∧ (train_epoch self v).2.2 = (c : ℝ) / 4) ∧
    (train_epoch self v).2.2 ∈ ({0, 1 / 4, 1 / 2, 3 / 4, 1} : Set ℝ) := by
  have hc : (training_data.foldl (epochBody v) (self, 0, 0)).2.2 ≤ 4 := by
    have h := foldl_correct_le v training_data (self, 0, 0)
    simpa [training_data] using h
  have heq : (train_epoch self v).2.2 =
      ((training_data.foldl (epochBody v) (self, 0, 0)).2.2 : ℝ) / 4 := by
    unfold train_epoch
    dsimp only
    norm_num [training_data]
  have hex : ∃ c : ℕ, c ≤ 4 ∧ (train_epoch self v).2.2 = (c : ℝ) / 4 :=
    ⟨_, hc, heq⟩
  refine ⟨hex, ?_⟩
  obtain ⟨c, hc4, heq'⟩ := hex
  rw [heq']
  interval_cases c <;> norm_num [Set.mem_insert_iff]

/-- Rewriting a conditional increment as adding a conditional. -/
theorem ite_add_count (c : Prop) [Decidable c] (a : ℕ) :
    (if c then a + 1 else a) = a + (if c then 1 else 0) := by
  split <;> omega

set_option maxHeartbeats 2000000 in
/-- Unfolding of one epoch into its four training steps and
prediction checks; the counter is presented as a sum of indicator
conditionals. -/
theorem train_epoch_unfold (self : XORNeuralNetwork) (v : Bool) :
    train_epoch self v =
      (let r1 := train_step self (0, 0) 0 v
       let p1 : ℝ := if (forward_pass r1.1 (0, 0)).1 > 1 / 2 then 1 else 0
       let r2 := train_step r1.1 (0, 1) 1 v
       let p2 : ℝ := if (forward_pass r2.1 (0, 1)).1 > 1 / 2 then 1 else 0
       let r3 := train_step r2.1 (1, 0) 1 v
       let p3 : ℝ := if (forward_pass r3.1 (1, 0)).1 > 1 / 2 then 1 else 0
       let r4 := train_step r3.1 (1, 1) 0 v
       let p4 : ℝ := if (forward_pass r4.1 (1, 1)).1 > 1 / 2 then 1 else 0
       let correct : ℕ := (if p1 = 0 then 1 else 0) + (if p2 = 1 then 1 else 0) +
         (if p3 = 1 then 1 else 0) + (if p4 = 0 then 1 else 0)
       (r4.1, (r1.2 + r2.2 + r3.2 + r4.2) / 4, (correct : ℝ) / 4)) := by
  simp only [train_epoch, training_data, List.foldl, epochBody,
    List.length_cons, List.length_nil]
  generalize train_step self (0, 0) 0 v = r1
  generalize (forward_pass r1.1 (0, 0)).1 = o1
  generalize train_step r1.1 (0, 1) 1 v = r2
  generalize (forward_pass r2.1 (0, 1)).1 = o2
  generalize train_step r2.1 (1, 0) 1 v = r3
  generalize (forward_pass r3.1 (1, 0)).1 = o3
  generalize train_step r3.1 (1, 1) 0 v = r4
  generalize (forward_pass r4.1 (1, 1)).1 = o4
  split_ifs <;> norm_num [Prod.mk.injEq]

/-- Claim C4: one epoch is exactly: the training step on the four XOR
examples `((0,0),0), ((0,1),1), ((1,0),1), ((1,1),0)` in that order,
each followed by recomputing that example's prediction with the
post-update weights via `1 if output > 0.5 else 0`; the result is the
final state, the summed squared error divided by 4, and the number of
correct predictions divided by 4. -/
theorem claim_C4_theorem (self : XORNeuralNetwork) (v : Bool) :
    train_epoch self v =
      (let r1 := train_step self (0, 0) 0 v
       let p1 : ℝ := if (forward_pass r1.1 (0, 0)).1 > 1 / 2 then 1 else 0
       let r2 := train_step r1.1 (0, 1) 1 v
       let p2 : ℝ := if (forward_pass r2.1 (0, 1)).1 > 1 / 2 then 1 else 0
       let r3 := train_step r2.1 (1, 0) 1 v
       let p3 : ℝ := if (forward_pass r3.1 (1, 0)).1 > 1 / 2 then 1 else 0
       let r4 := train_step r3.1 (1, 1) 0 v
       let p4 : ℝ := if (forward_pass r4.1 (1, 1)).1 > 1 / 2 then 1 else 0
       let correct : ℕ := (if p1 = 0 then 1 else 0) + (if p2 = 1 then 1 else 0) +
         (if p3 = 1 then 1 else 0) + (if p4 = 0 then 1 else 0)
       (r4.1, (r1.2 + r2.2 + r3.2 + r4.2) / 4, (correct : ℝ) / 4)) :=
  train_epoch_unfold self v

namespace XORNeuralNetwork

/-! ### The stopping behaviour of `train` -/

theorem afterEpochs_succ_left (self : XORNeuralNetwork) (n : ℕ) :
    afterEpochs self (n + 1) = afterEpochs (epochStep self) n := by
  induction n with
  | zero => rfl
  | succ n ih =>
    show epochStep (afterEpochs self (n + 1)) = _
    rw [ih]
    rfl

theorem accAt_epochStep (self : XORNeuralNetwork) (j : ℕ) :
    accAt (epochStep self) j = accAt self (j + 1) := by
  unfold accAt
  rw [← afterEpochs_succ_left]

theorem epochStep_errors (self : XORNeuralNetwork) :
    (epochStep self).errors = self.errors ++ [(train_epoch self false).2.1] := by
  unfold epochStep
  rw [appendMetrics_errors, train_epoch_errors]

theorem epochStep_accuracies (self : XORNeuralNetwork) :
    (epochStep self).accuracies =
      self.accuracies ++ [(train_epoch self false).2.2] := by
  unfold epochStep
  rw [appendMetrics_accuracies, train_epoch_accuracies]

theorem afterEpochs_errors_length (self : XORNeuralNetwork) (n : ℕ) :
    (afterEpochs self n).errors.length = self.errors.length + n := by
  induction n with
  | zero => rfl
  | succ n ih =>
    show (epochStep (afterEpochs self n)).errors.length = _
    rw [epochStep_errors]
    simp only [List.length_append, List.length_cons, List.length_nil, ih]
    omega

theorem afterEpochs_accuracies_length (self : XORNeuralNetwork) (n : ℕ) :
    (afterEpochs self n).accuracies.length = self.accuracies.length + n := by
  induction n with
  | zero => rfl
  | succ n ih =>
    show (epochStep (afterEpochs self n)).accuracies.length = _
    rw [epochStep_accuracies]
    simp only [List.length_append, List.length_cons, List.length_nil, ih]
    omega

/-- If epoch `k` is the first whose accuracy reaches the threshold and
the budget allows it, `trainGo` runs epochs `0..k`, appends all their
metrics, and stops. -/
theorem trainGo_stop_char (t : ℝ) :
    ∀ (k rem : ℕ) (self : XORNeuralNetwork) (epoch : ℕ), k < rem →
      (∀ j, j < k → accAt self j < t) → accAt self k ≥ t →
      trainGo t self epoch rem = (afterEpochs self (k + 1),
        (List.range (k + 1)).map (fun i => (epoch + i) % 1000 == 0)) := by
  intro k
  induction k with
  | zero =>
    intro rem self epoch hk hbefore hacc
    obtain ⟨r, rfl⟩ : ∃ r, rem = r + 1 := ⟨rem - 1, by omega⟩
    have hacc' : (train_epoch self (epoch % 1000 == 0)).2.2 ≥ t := by
      rw [train_epoch_verbose]
      exact hacc
    rw [trainGo_succ_pos hacc']
    refine Prod.ext ?_ ?_
    · show appendMetrics (train_epoch self (epoch % 1000 == 0)) = afterEpochs self 1
      rw [train_epoch_verbose]
      rfl
    · simp [List.range_succ]
  | succ k ih =>
    intro rem self epoch hk hbefore hacc
    obtain ⟨r, rfl⟩ : ∃ r, rem = r + 1 := ⟨rem - 1, by omega⟩
    have h0 : ¬ (train_epoch self (epoch % 1000 == 0)).2.2 ≥ t := by
      rw [train_epoch_verbose]
      exact not_le.mpr (hbefore 0 (by omega))
    rw [trainGo_succ_neg h0]
    have hstep : appendMetrics (train_epoch self (epoch % 1000 == 0)) = epochStep self := by
      rw [train_epoch_verbose]
      rfl
    rw [hstep]
    have hb' : ∀ j, j < k → accAt (epochStep self) j < t := by
      intro j hj
      rw [accAt_epochStep]
      exact hbefore (j + 1) (by omega)
    have ha' : accAt (epochStep self) k ≥ t := by
      rw [accAt_epochStep]
      exact hacc
    have ih' := ih r (epochStep self) (epoch + 1) (by omega) hb' ha'
    rw [ih']
    refine Prod.ext ?_ ?_
    · exact (afterEpochs_succ_left self (k + 1)).symm
    · show (epoch % 1000 == 0) ::
        (List.range (k + 1)).map (fun i => (epoch + 1 + i) % 1000 == 0) =
        (List.range (k + 1 + 1)).map (fun i => (epoch + i) % 1000 == 0)
      have hfun : ((fun i => (epoch + i) % 1000 == 0) ∘ Nat.succ) =
          (fun i => (epoch + 1 + i) % 1000 == 0) := by
        funext i
        have h2 : epoch + Nat.succ i = epoch + 1 + i := by omega
        simp [Function.comp_apply, h2]
      have hr : (List.range (k + 1 + 1)).map (fun i => (epoch + i) % 1000 == 0) =
          (epoch % 1000 == 0) ::
            (List.range (k + 1)).map (fun i => (epoch + 1 + i) % 1000 == 0) := by
        rw [List.range_succ_eq_map, List.map_cons, List.map_map, hfun]
        simp
      rw [hr]

/-- The verbose flag passed to epoch `epoch + k` is
`(epoch + k) % 1000 == 0`, for every epoch that actually runs. -/
theorem trainGo_flags (t : ℝ) :
    ∀ (rem : ℕ) (self : XORNeuralNetwork) (epoch k : ℕ),
      k < (trainGo t self epoch rem).2.length →
      (trainGo t self epoch rem).2.getD k false = ((epoch + k) % 1000 == 0) := by
  intro rem
  induction rem with
  | zero =>
    intro self epoch k hk
    simp [trainGo_zero] at hk
  | succ rem ih =>
    intro self epoch k hk
    by_cases h : (train_epoch self (epoch % 1000 == 0)).2.2 ≥ t
    · rw [trainGo_succ_pos h] at hk ⊢
      simp only [List.length_cons, List.length_nil] at hk
      have hk0 : k = 0 := by omega
      subst hk0
      simp
    · rw [trainGo_succ_neg h] at hk ⊢
      cases k with
      | zero => simp
      | succ k =>
        simp only [List.length_cons] at hk
        have hk' : k < (trainGo t (appendMetrics (train_epoch self (epoch % 1000 == 0)))
            (epoch + 1) rem).2.length := by omega
        rw [List.getD_cons_succ]
        rw [ih _ (epoch + 1) k hk']
        congr 2
        omega

end XORNeuralNetwork

/-- Claim C3, counterexample: `train` called on a network that already
has one recorded history entry, with a threshold that epoch 0 already
meets (k = 0 is the first epoch with accuracy above threshold, and
0 < 3 epochs were allowed): the history sequences end with length 2,
not k + 1 = 1.  The final length is the prior length plus k + 1, not
k + 1. -/
theorem claim_C3_counterexample :
    accAt netPre 0 ≥ (1 / 2 : ℝ) ∧ (0 : ℕ) < 3 ∧
    (train netPre 3 (1 / 2)).1.errors.length = 2 ∧
    (train netPre 3 (1 / 2)).1.accuracies.length = 2 ∧ (2 : ℕ) ≠ 0 + 1 := by
  have hacc : accAt netPre 0 ≥ (1 / 2 : ℝ) := le_of_eq (accAt_zNet [0] [0]).symm
  have h := trainGo_stop_char (1 / 2) 0 3 netPre 0 (by norm_num)
    (fun j hj => absurd hj (by omega)) hacc
  refine ⟨hacc, by norm_num, ?_, ?_, by omega⟩
  · show (trainGo (1 / 2) netPre 0 3).1.errors.length = 2
    rw [h]
    rw [afterEpochs_errors_length]
    rfl
  · show (trainGo (1 / 2) netPre 0 3).1.accuracies.length = 2
    rw [h]
    rw [afterEpochs_accuracies_length]
    rfl

/-- Claim C3, amended: if `k < E` is the first (0-indexed) epoch whose
accuracy reaches the threshold `t`, then `train self E t` halts right
after epoch `k`: the final state is exactly the one after `k + 1`
epochs with all their metrics appended (so each history sequence has
grown by exactly `k + 1` entries — on a fresh network, final length
`k + 1`), and only `k + 1` epochs ran. -/
theorem claim_C3_theorem (self : XORNeuralNetwork) (E : ℕ) (t : ℝ) (k : ℕ)
    (hkE : k < E) (hbefore : ∀ j, j < k → accAt self j < t)
    (hk : accAt self k ≥ t) :
    train self E t = (afterEpochs self (k + 1),
      (List.range (k + 1)).map (fun i => i % 1000 == 0)) ∧
    (train self E t).1.errors.length = self.errors.length + (k + 1) ∧
    (train self E t).1.accuracies.length = self.accuracies.length + (k + 1) := by
  have h := trainGo_stop_char t k E self 0 hkE hbefore hk
  have htrain : train self E t = (afterEpochs self (k + 1),
      (List.range (k + 1)).map (fun i => i % 1000 == 0)) := by
    show trainGo t self 0 E = _
    rw [h]
    simp only [Nat.zero_add]
  refine ⟨htrain, ?_, ?_⟩
  · rw [htrain]
    exact afterEpochs_errors_length self (k + 1)
  · rw [htrain]
    exact afterEpochs_accuracies_length self (k + 1)

/-- Witness for claim C3 on the zero network with zero learning rate:
its constant accuracy is 1/2, so with threshold 1/2 it stops at epoch
0 with histories of length 1. -/
theorem claim_C3_witness :
    ((0 : ℕ) < 3 ∧ accAt netZero 0 ≥ (1 / 2 : ℝ)) ∧
    (train netZero 3 (1 / 2)).1.errors.length = netZero.errors.length + 1 ∧
    (train netZero 3 (1 / 2)).1.accuracies.length = netZero.accuracies.length + 1 := by
  have hacc : accAt netZero 0 ≥ (1 / 2 : ℝ) := le_of_eq (accAt_zNet [] []).symm
  have h := claim_C3_theorem netZero 3 (1 / 2) 0 (by norm_num)
    (fun j hj => absurd hj (by omega)) hacc
  exact ⟨⟨by norm_num, hacc⟩, h.2.1, h.2.2⟩

/-- Claim C2, amended: the verbose flag passed to an epoch is true
exactly at epoch indices divisible by 1000 (0-indexed); the epoch that
triggers early stopping receives no additional enabling. -/
theorem claim_C2_theorem (self : XORNeuralNetwork) (E : ℕ) (t : ℝ) (k : ℕ)
    (hk : k < (train self E t).2.length) :
    ((train self E t).2.getD k false = true ↔ k % 1000 = 0) := by
  have h : (trainGo t self 0 E).2.getD k false = ((0 + k) % 1000 == 0) :=
    trainGo_flags t E self 0 k hk
  show (trainGo t self 0 E).2.getD k false = true ↔ k % 1000 = 0
  rw [h]
  simp [Nat.zero_add]

/-- Witness for claim C2 on the zero network with an unreachable
threshold and a one-epoch budget: the single flag passed is true and
its index 0 is divisible by 1000. -/
theorem claim_C2_witness :
    0 < (train netZero 1 2).2.length ∧
    ((train netZero 1 2).2.getD 0 false = true ↔ 0 % 1000 = 0) := by
  have h0 : ¬ (train_epoch netZero ((0 : ℕ) % 1000 == 0)).2.2 ≥ (2 : ℝ) := by
    rw [train_epoch_verbose]
    show ¬ (train_epoch (zNet 0 [] []) false).2.2 ≥ (2 : ℝ)
    rw [train_epoch_zNet]
    norm_num
  have hrun : (train netZero 1 2).2 = [true] := by
    show (trainGo 2 netZero 0 1).2 = [true]
    rw [trainGo_succ_neg h0]
    simp [trainGo_zero]
  exact ⟨by rw [hrun]; norm_num,
    claim_C2_theorem netZero 1 2 0 (by rw [hrun]; norm_num)⟩

namespace XORNeuralNetwork

/-! ### Projections of one training step -/

theorem train_step_w_output_v0 (self : XORNeuralNetwork) (x : ℝ × ℝ) (t : ℝ) (v : Bool) :
    (train_step self x t v).1.w_output.v0 =
      self.w_output.v0 + self.learning_rate * gout self x t := rfl

theorem train_step_w_output_v1 (self : XORNeuralNetwork) (x : ℝ × ℝ) (t : ℝ) (v : Bool) :
    (train_step self x t v).1.w_output.v1 = c1post self x t := rfl

theorem train_step_w_output_v2 (self : XORNeuralNetwork) (x : ℝ × ℝ) (t : ℝ) (v : Bool) :
    (train_step self x t v).1.w_output.v2 = c2post self x t := rfl

theorem train_step_w_hidden_1_v0 (self : XORNeuralNetwork) (x : ℝ × ℝ) (t : ℝ) (v : Bool) :
    (train_step self x t v).1.w_hidden_1.v0 =
      self.w_hidden_1.v0 + self.learning_rate * gh1 self x t := rfl

theorem train_step_w_hidden_1_v1 (self : XORNeuralNetwork) (x : ℝ × ℝ) (t : ℝ) (v : Bool) :
    (train_step self x t v).1.w_hidden_1.v1 =
      self.w_hidden_1.v1 + self.learning_rate * gh1 self x t * x.1 := rfl

theorem train_step_w_hidden_1_v2 (self : XORNeuralNetwork) (x : ℝ × ℝ) (t : ℝ) (v : Bool) :
    (train_step self x t v).1.w_hidden_1.v2 =
      self.w_hidden_1.v2 + self.learning_rate * gh1 self x t * x.2 := rfl

theorem train_step_w_hidden_2_v0 (self : XORNeuralNetwork) (x : ℝ × ℝ) (t : ℝ) (v : Bool) :
    (train_step self x t v).1.w_hidden_2.v0 =
      self.w_hidden_2.v0 + self.learning_rate * gh2 self x t := rfl

theorem train_step_w_hidden_2_v1 (self : XORNeuralNetwork) (x : ℝ × ℝ) (t : ℝ) (v : Bool) :
    (train_step self x t v).1.w_hidden_2.v1 =
      self.w_hidden_2.v1 + self.learning_rate * gh2 self x t * x.1 := rfl

theorem train_step_w_hidden_2_v2 (self : XORNeuralNetwork) (x : ℝ × ℝ) (t : ℝ) (v : Bool) :
    (train_step self x t v).1.w_hidden_2.v2 =
      self.w_hidden_2.v2 + self.learning_rate * gh2 self x t * x.2 := rfl

theorem forward_pass_fst (self : XORNeuralNetwork) (x : ℝ × ℝ) :
    (forward_pass self x).1 = oout self x := rfl

/-! ### Numeric saturation bounds -/

theorem exp_neg_14_le : Real.exp (-14 : ℝ) ≤ 1 / 10000 := by
  have h := exp_neg_nat_le 14
  norm_num at h
  linarith

theorem exp_neg_18_le : Real.exp (-18 : ℝ) ≤ 1 / 250000 := by
  have h := exp_neg_nat_le 18
  norm_num at h
  linarith

theorem sigmoid_band_lo {y : ℝ} (h : y ≤ -14) : sigmoid y ≤ 1 / 10000 :=
  le_trans (sigmoid_le_exp_neg (by norm_num) (by norm_num) h) exp_neg_14_le

theorem sigmoid_band_hi {y : ℝ} (h : 14 ≤ y) : 1 - 1 / 10000 ≤ sigmoid y := by
  have h1 := one_sub_exp_le_sigmoid (by norm_num : (0:ℝ) ≤ 14) (by norm_num) h
  have h2 := exp_neg_14_le
  linarith

theorem sigmoid_band_lo18 {y : ℝ} (h : y ≤ -18) : sigmoid y ≤ 1 / 250000 :=
  le_trans (sigmoid_le_exp_neg (by norm_num) (by norm_num) h) exp_neg_18_le

theorem sigmoid_band_hi18 {y : ℝ} (h : 18 ≤ y) : 1 - 1 / 250000 ≤ sigmoid y := by
  have h1 := one_sub_exp_le_sigmoid (by norm_num : (0:ℝ) ≤ 18) (by norm_num) h
  have h2 := exp_neg_18_le
  linarith

/-! ### Small algebra helpers for the interval tracking -/

theorem abs_triangle3 {x y z e1 e2 : ℝ} (h1 : |y - x| ≤ e1) (h2 : |z - y| ≤ e2) :
    |z - x| ≤ e1 + e2 := by
  have h := abs_sub_le z y x
  linarith

theorem abs_quarter {g b : ℝ} (hb : |g| ≤ b) : |1 / 4 * g| ≤ b := by
  rw [abs_mul]
  have h4 : |(1 / 4 : ℝ)| = 1 / 4 := by norm_num
  rw [h4]
  have h0 := abs_nonneg g
  linarith

theorem abs_quarter_mul {g u b : ℝ} (hb : |g| ≤ b) (hu0 : 0 ≤ u) (hu1 : u ≤ 1)
    (hb0 : 0 ≤ b) : |1 / 4 * g * u| ≤ b := by
  rw [abs_mul, abs_mul]
  have h4 : |(1 / 4 : ℝ)| = 1 / 4 := by norm_num
  rw [h4, abs_of_nonneg hu0]
  nlinarith [abs_nonneg g]

theorem HidDelta_trans {a b c : XORNeuralNetwork} {e1 e2 : ℝ}
    (h1 : HidDelta a b e1) (h2 : HidDelta b c e2) : HidDelta a c (e1 + e2) := by
  obtain ⟨p1, p2, p3, p4, p5, p6⟩ := h1
  obtain ⟨q1, q2, q3, q4, q5, q6⟩ := h2
  exact ⟨abs_triangle3 p1 q1, abs_triangle3 p2 q2, abs_triangle3 p3 q3,
    abs_triangle3 p4 q4, abs_triangle3 p5 q5, abs_triangle3 p6 q6⟩

theorem OutDelta_trans {a b c : XORNeuralNetwork} {e1 e2 : ℝ}
    (h1 : OutDelta a b e1) (h2 : OutDelta b c e2) : OutDelta a c (e1 + e2) := by
  obtain ⟨p1, p2, p3⟩ := h1
  obtain ⟨q1, q2, q3⟩ := h2
  exact ⟨abs_triangle3 p1 q1, abs_triangle3 p2 q2, abs_triangle3 p3 q3⟩

end XORNeuralNetwork

namespace XORNeuralNetwork

attribute [irreducible] sigmoid forward_pass train_step train_epoch trainGo

set_option maxHeartbeats 1600000 in
/-- A "quiet" training step: on an example whose output pre-activation
is saturated (|y| ≥ 14) with the matching target and whose hidden
pre-activations are saturated (|y| ≥ 19), every weight moves by at
most `1/10000` and the example's prediction after the step matches the
target. -/
theorem quiet_step (self : XORNeuralNetwork) (x1 x2 t : ℝ) (v : Bool)
    (hlr : self.learning_rate = 1 / 4)
    (hx1a : 0 ≤ x1) (hx1b : x1 ≤ 1) (hx2a : 0 ≤ x2) (hx2b : x2 ≤ 1)
    (hC1 : |self.w_output.v1| ≤ 31) (hC2 : |self.w_output.v2| ≤ 31)
    (hsat1 : yh1 self (x1, x2) ≤ -19 ∨ 19 ≤ yh1 self (x1, x2))
    (hsat2 : yh2 self (x1, x2) ≤ -19 ∨ 19 ≤ yh2 self (x1, x2))
    (hyt : (yout self (x1, x2) ≤ -14 ∧ t = 0) ∨ (14 ≤ yout self (x1, x2) ∧ t = 1)) :
    HidDelta self (train_step self (x1, x2) t v).1 (1 / 10000) ∧
    OutDelta self (train_step self (x1, x2) t v).1 (1 / 10000) ∧
    ((if (forward_pass (train_step self (x1, x2) t v).1 (x1, x2)).1 > 1 / 2
      then (1 : ℝ) else 0) = t) := by
  have hs1a : 0 < oh1 self (x1, x2) := sigmoid_pos _
  have hs1b : oh1 self (x1, x2) < 1 := sigmoid_lt_one _
  have hs2a : 0 < oh2 self (x1, x2) := sigmoid_pos _
  have hs2b : oh2 self (x1, x2) < 1 := sigmoid_lt_one _
  have hoa : 0 < oout self (x1, x2) := sigmoid_pos _
  have hob : oout self (x1, x2) < 1 := sigmoid_lt_one _
  have hosmall : oout self (x1, x2) * (1 - oout self (x1, x2)) ≤ 1 / 10000 := by
    rcases hyt with ⟨hy, -⟩ | ⟨hy, -⟩
    · have h : oout self (x1, x2) ≤ 1 / 10000 := sigmoid_band_lo hy
      nlinarith
    · have h : 1 - 1 / 10000 ≤ oout self (x1, x2) := sigmoid_band_hi hy
      nlinarith
  have hopos : (0 : ℝ) ≤ oout self (x1, x2) * (1 - oout self (x1, x2)) := by nlinarith
  have hterm : -1 ≤ t - oout self (x1, x2) ∧ t - oout self (x1, x2) ≤ 1 := by
    rcases hyt with ⟨-, ht0⟩ | ⟨-, ht1⟩ <;> subst_vars <;> constructor <;> linarith
  have hg : |gout self (x1, x2) t| ≤ 1 / 10000 := by
    have hgexp : gout self (x1, x2) t =
        (t - oout self (x1, x2)) * (oout self (x1, x2) * (1 - oout self (x1, x2))) := by
      unfold gout; ring
    rw [hgexp, abs_mul, abs_of_nonneg hopos]
    have habs1 : |t - oout self (x1, x2)| ≤ 1 := abs_le.mpr hterm
    nlinarith [abs_nonneg (t - oout self (x1, x2))]
  have hc1p : |c1post self (x1, x2) t| ≤ 32 := by
    have hce : c1post self (x1, x2) t =
        self.w_output.v1 + 1 / 4 * gout self (x1, x2) t * oh1 self (x1, x2) := by
      unfold c1post; rw [hlr]
    rw [hce]
    have h1 := abs_add (self.w_output.v1)
      (1 / 4 * gout self (x1, x2) t * oh1 self (x1, x2))
    have h2 : |1 / 4 * gout self (x1, x2) t * oh1 self (x1, x2)| ≤ 1 / 10000 :=
      abs_quarter_mul hg (le_of_lt hs1a) (le_of_lt hs1b) (by norm_num)
    calc |self.w_output.v1 + 1 / 4 * gout self (x1, x2) t * oh1 self (x1, x2)|
        ≤ |self.w_output.v1| +
          |1 / 4 * gout self (x1, x2) t * oh1 self (x1, x2)| := h1
      _ ≤ 32 := by linarith
  have hc2p : |c2post self (x1, x2) t| ≤ 32 := by
    have hce : c2post self (x1, x2) t =
        self.w_output.v2 + 1 / 4 * gout self (x1, x2) t * oh2 self (x1, x2) := by
      unfold c2post; rw [hlr]
    rw [hce]
    have h1 := abs_add (self.w_output.v2)
      (1 / 4 * gout self (x1, x2) t * oh2 self (x1, x2))
    have h2 : |1 / 4 * gout self (x1, x2) t * oh2 self (x1, x2)| ≤ 1 / 10000 :=
      abs_quarter_mul hg (le_of_lt hs2a) (le_of_lt hs2b) (by norm_num)
    calc |self.w_output.v2 + 1 / 4 * gout self (x1, x2) t * oh2 self (x1, x2)|
        ≤ |self.w_output.v2| +
          |1 / 4 * gout self (x1, x2) t * oh2 self (x1, x2)| := h1
      _ ≤ 32 := by linarith
  have hsls1 : oh1 self (x1, x2) * (1 - oh1 self (x1, x2)) ≤ 1 / 250000 := by
    rcases hsat1 with h | h
    · have hb : oh1 self (x1, x2) ≤ 1 / 250000 := sigmoid_band_lo18 (by linarith)
      nlinarith
    · have hb : 1 - 1 / 250000 ≤ oh1 self (x1, x2) := sigmoid_band_hi18 (by linarith)
      nlinarith
  have hsls2 : oh2 self (x1, x2) * (1 - oh2 self (x1, x2)) ≤ 1 / 250000 := by
    rcases hsat2 with h | h
    · have hb : oh2 self (x1, x2) ≤ 1 / 250000 := sigmoid_band_lo18 (by linarith)
      nlinarith
    · have hb : 1 - 1 / 250000 ≤ oh2 self (x1, x2) := sigmoid_band_hi18 (by linarith)
      nlinarith
  have hgh1 : |gh1 self (x1, x2) t| ≤ 1 / 100000 := by
    have hexp : gh1 self (x1, x2) t =
        (gout self (x1, x2) t * c1post self (x1, x2) t) *
          (oh1 self (x1, x2) * (1 - oh1 self (x1, x2))) := by
      unfold gh1; ring
    have hnn : (0 : ℝ) ≤ oh1 self (x1, x2) * (1 - oh1 self (x1, x2)) := by nlinarith
    have h1 : |gout self (x1, x2) t * c1post self (x1, x2) t| ≤ 1 / 10000 * 32 := by
      rw [abs_mul]
      exact mul_le_mul hg hc1p (abs_nonneg _) (by norm_num)
    rw [hexp, abs_mul, abs_of_nonneg hnn]
    nlinarith [abs_nonneg (gout self (x1, x2) t * c1post self (x1, x2) t)]
  have hgh2 : |gh2 self (x1, x2) t| ≤ 1 / 100000 := by
    have hexp : gh2 self (x1, x2) t =
        (gout self (x1, x2) t * c2post self (x1, x2) t) *
          (oh2 self (x1, x2) * (1 - oh2 self (x1, x2))) := by
      unfold gh2; ring
    have hnn : (0 : ℝ) ≤ oh2 self (x1, x2) * (1 - oh2 self (x1, x2)) := by nlinarith
    have h1 : |gout self (x1, x2) t * c2post self (x1, x2) t| ≤ 1 / 10000 * 32 := by
      rw [abs_mul]
      exact mul_le_mul hg hc2p (abs_nonneg _) (by norm_num)
    rw [hexp, abs_mul, abs_of_nonneg hnn]
    nlinarith [abs_nonneg (gout self (x1, x2) t * c2post self (x1, x2) t)]
  have hdh : HidDelta self (train_step self (x1, x2) t v).1 (1 / 10000) := by
    refine ⟨?_, ?_, ?_, ?_, ?_, ?_⟩
    · rw [train_step_w_hidden_1_v0, hlr, add_sub_cancel_left]
      exact le_trans (abs_quarter hgh1) (by norm_num)
    · rw [train_step_w_hidden_1_v1, hlr, add_sub_cancel_left]
      exact le_trans (abs_quarter_mul hgh1 hx1a hx1b (by norm_num)) (by norm_num)
    · rw [train_step_w_hidden_1_v2, hlr, add_sub_cancel_left]
      exact le_trans (abs_quarter_mul hgh1 hx2a hx2b (by norm_num)) (by norm_num)
    · rw [train_step_w_hidden_2_v0, hlr, add_sub_cancel_left]
      exact le_trans (abs_quarter hgh2) (by norm_num)
    · rw [train_step_w_hidden_2_v1, hlr, add_sub_cancel_left]
      exact le_trans (abs_quarter_mul hgh2 hx1a hx1b (by norm_num)) (by norm_num)
    · rw [train_step_w_hidden_2_v2, hlr, add_sub_cancel_left]
      exact le_trans (abs_quarter_mul hgh2 hx2a hx2b (by norm_num)) (by norm_num)
  have hdo : OutDelta self (train_step self (x1, x2) t v).1 (1 / 10000) := by
    refine ⟨?_, ?_, ?_⟩
    · rw [train_step_w_output_v0, hlr, add_sub_cancel_left]
      exact abs_quarter hg
    · rw [train_step_w_output_v1]
      have hce : c1post self (x1, x2) t - self.w_output.v1 =
          1 / 4 * gout self (x1, x2) t * oh1 self (x1, x2) := by
        unfold c1post; rw [hlr]; ring
      rw [hce]
      exact abs_quarter_mul hg (le_of_lt hs1a) (le_of_lt hs1b) (by norm_num)
    · rw [train_step_w_output_v2]
      have hce : c2post self (x1, x2) t - self.w_output.v2 =
          1 / 4 * gout self (x1, x2) t * oh2 self (x1, x2) := by
        unfold c2post; rw [hlr]; ring
      rw [hce]
      exact abs_quarter_mul hg (le_of_lt hs2a) (le_of_lt hs2b) (by norm_num)
  -- the example's prediction after the step
  have hyh1near : |yh1 (train_step self (x1, x2) t v).1 (x1, x2) -
      yh1 self (x1, x2)| ≤ 1 / 1000 := by
    have hd : yh1 (train_step self (x1, x2) t v).1 (x1, x2) =
        yh1 self (x1, x2) +
          1 / 4 * gh1 self (x1, x2) t * (1 + x1 * x1 + x2 * x2) := by
      unfold yh1
      rw [train_step_w_hidden_1_v0, train_step_w_hidden_1_v1,
        train_step_w_hidden_1_v2, hlr]
      ring
    rw [hd, add_sub_cancel_left, abs_mul]
    have h1 := abs_quarter hgh1
    have h3 : |1 + x1 * x1 + x2 * x2| ≤ 3 := by
      rw [abs_of_nonneg (by nlinarith)]
      nlinarith
    nlinarith [abs_nonneg (1 / 4 * gh1 self (x1, x2) t),
      abs_nonneg (1 + x1 * x1 + x2 * x2)]
  have hyh2near : |yh2 (train_step self (x1, x2) t v).1 (x1, x2) -
      yh2 self (x1, x2)| ≤ 1 / 1000 := by
    have hd : yh2 (train_step self (x1, x2) t v).1 (x1, x2) =
        yh2 self (x1, x2) +
          1 / 4 * gh2 self (x1, x2) t * (1 + x1 * x1 + x2 * x2) := by
      unfold yh2
      rw [train_step_w_hidden_2_v0, train_step_w_hidden_2_v1,
        train_step_w_hidden_2_v2, hlr]
      ring
    rw [hd, add_sub_cancel_left, abs_mul]
    have h1 := abs_quarter hgh2
    have h3 : |1 + x1 * x1 + x2 * x2| ≤ 3 := by
      rw [abs_of_nonneg (by nlinarith)]
      nlinarith
    nlinarith [abs_nonneg (1 / 4 * gh2 self (x1, x2) t),
      abs_nonneg (1 + x1 * x1 + x2 * x2)]
  have hs1d : |oh1 (train_step self (x1, x2) t v).1 (x1, x2) -
      oh1 self (x1, x2)| ≤ 1 / 250000 := by
    have hb1 : 0 < oh1 (train_step self (x1, x2) t v).1 (x1, x2) := sigmoid_pos _
    have hb2 : oh1 (train_step self (x1, x2) t v).1 (x1, x2) < 1 := sigmoid_lt_one _
    have habs := abs_le.mp hyh1near
    rcases hsat1 with h | h
    · have hq1 : oh1 self (x1, x2) ≤ 1 / 250000 := sigmoid_band_lo18 (by linarith)
      have hq2 : oh1 (train_step self (x1, x2) t v).1 (x1, x2) ≤ 1 / 250000 :=
        sigmoid_band_lo18 (by linarith)
      rw [abs_le]
      constructor <;> nlinarith [sigmoid_pos (yh1 (train_step self (x1, x2) t v).1 (x1, x2))]
    · have hq1 : 1 - 1 / 250000 ≤ oh1 self (x1, x2) := sigmoid_band_hi18 (by linarith)
      have hq2 : 1 - 1 / 250000 ≤ oh1 (train_step self (x1, x2) t v).1 (x1, x2) :=
        sigmoid_band_hi18 (by linarith)
      rw [abs_le]
      constructor <;> nlinarith
  have hs2d : |oh2 (train_step self (x1, x2) t v).1 (x1, x2) -
      oh2 self (x1, x2)| ≤ 1 / 250000 := by
    have hb1 : 0 < oh2 (train_step self (x1, x2) t v).1 (x1, x2) := sigmoid_pos _
    have hb2 : oh2 (train_step self (x1, x2) t v).1 (x1, x2) < 1 := sigmoid_lt_one _
    have habs := abs_le.mp hyh2near
    rcases hsat2 with h | h
    · have hq1 : oh2 self (x1, x2) ≤ 1 / 250000 := sigmoid_band_lo18 (by linarith)
      have hq2 : oh2 (train_step self (x1, x2) t v).1 (x1, x2) ≤ 1 / 250000 :=
        sigmoid_band_lo18 (by linarith)
      rw [abs_le]
      constructor <;> nlinarith [sigmoid_pos (yh2 (train_step self (x1, x2) t v).1 (x1, x2))]
    · have hq1 : 1 - 1 / 250000 ≤ oh2 self (x1, x2) := sigmoid_band_hi18 (by linarith)
      have hq2 : 1 - 1 / 250000 ≤ oh2 (train_step self (x1, x2) t v).1 (x1, x2) :=
        sigmoid_band_hi18 (by linarith)
      rw [abs_le]
      constructor <;> nlinarith
  have hterm1 : |oh1 (train_step self (x1, x2) t v).1 (x1, x2) *
      c1post self (x1, x2) t - oh1 self (x1, x2) * self.w_output.v1| ≤ 3 / 10000 := by
    have hdec : oh1 (train_step self (x1, x2) t v).1 (x1, x2) *
        c1post self (x1, x2) t - oh1 self (x1, x2) * self.w_output.v1 =
        (oh1 (train_step self (x1, x2) t v).1 (x1, x2) - oh1 self (x1, x2)) *
          self.w_output.v1 +
        oh1 (train_step self (x1, x2) t v).1 (x1, x2) *
          (1 / 4 * gout self (x1, x2) t * oh1 self (x1, x2)) := by
      have hce : c1post self (x1, x2) t =
          self.w_output.v1 + 1 / 4 * gout self (x1, x2) t * oh1 self (x1, x2) := by
        unfold c1post; rw [hlr]
      rw [hce]; ring
    rw [hdec]
    have ha := abs_add
      ((oh1 (train_step self (x1, x2) t v).1 (x1, x2) - oh1 self (x1, x2)) *
        self.w_output.v1)
      (oh1 (train_step self (x1, x2) t v).1 (x1, x2) *
        (1 / 4 * gout self (x1, x2) t * oh1 self (x1, x2)))
    have hp1 : |(oh1 (train_step self (x1, x2) t v).1 (x1, x2) - oh1 self (x1, x2)) *
        self.w_output.v1| ≤ 1 / 250000 * 31 := by
      rw [abs_mul]
      exact mul_le_mul hs1d hC1 (abs_nonneg _) (by norm_num)
    have hp2 : |oh1 (train_step self (x1, x2) t v).1 (x1, x2) *
        (1 / 4 * gout self (x1, x2) t * oh1 self (x1, x2))| ≤ 1 / 10000 := by
      rw [abs_mul]
      have hq : |1 / 4 * gout self (x1, x2) t * oh1 self (x1, x2)| ≤ 1 / 10000 :=
        abs_quarter_mul hg (le_of_lt hs1a) (le_of_lt hs1b) (by norm_num)
      have hsb : |oh1 (train_step self (x1, x2) t v).1 (x1, x2)| ≤ 1 := by
        have hq1 : 0 < oh1 (train_step self (x1, x2) t v).1 (x1, x2) := sigmoid_pos _
        have hq2 : oh1 (train_step self (x1, x2) t v).1 (x1, x2) < 1 := sigmoid_lt_one _
        rw [abs_of_pos hq1]
        exact le_of_lt hq2
      nlinarith [abs_nonneg (1 / 4 * gout self (x1, x2) t * oh1 self (x1, x2)),
        abs_nonneg (oh1 (train_step self (x1, x2) t v).1 (x1, x2))]
    linarith
  have hterm2 : |oh2 (train_step self (x1, x2) t v).1 (x1, x2) *
      c2post self (x1, x2) t - oh2 self (x1, x2) * self.w_output.v2| ≤ 3 / 10000 := by
    have hdec : oh2 (train_step self (x1, x2) t v).1 (x1, x2) *
        c2post self (x1, x2) t - oh2 self (x1, x2) * self.w_output.v2 =
        (oh2 (train_step self (x1, x2) t v).1 (x1, x2) - oh2 self (x1, x2)) *
          self.w_output.v2 +
        oh2 (train_step self (x1, x2) t v).1 (x1, x2) *
          (1 / 4 * gout self (x1, x2) t * oh2 self (x1, x2)) := by
      have hce : c2post self (x1, x2) t =
          self.w_output.v2 + 1 / 4 * gout self (x1, x2) t * oh2 self (x1, x2) := by
        unfold c2post; rw [hlr]
      rw [hce]; ring
    rw [hdec]
    have ha := abs_add
      ((oh2 (train_step self (x1, x2) t v).1 (x1, x2) - oh2 self (x1, x2)) *
        self.w_output.v2)
      (oh2 (train_step self (x1, x2) t v).1 (x1, x2) *
        (1 / 4 * gout self (x1, x2) t * oh2 self (x1, x2)))
    have hp1 : |(oh2 (train_step self (x1, x2) t v).1 (x1, x2) - oh2 self (x1, x2)) *
        self.w_output.v2| ≤ 1 / 250000 * 31 := by
      rw [abs_mul]
      exact mul_le_mul hs2d hC2 (abs_nonneg _) (by norm_num)
    have hp2 : |oh2 (train_step self (x1, x2) t v).1 (x1, x2) *
        (1 / 4 * gout self (x1, x2) t * oh2 self (x1, x2))| ≤ 1 / 10000 := by
      rw [abs_mul]
      have hq : |1 / 4 * gout self (x1, x2) t * oh2 self (x1, x2)| ≤ 1 / 10000 :=
        abs_quarter_mul hg (le_of_lt hs2a) (le_of_lt hs2b) (by norm_num)
      have hsb : |oh2 (train_step self (x1, x2) t v).1 (x1, x2)| ≤ 1 := by
        have hq1 : 0 < oh2 (train_step self (x1, x2) t v).1 (x1, x2) := sigmoid_pos _
        have hq2 : oh2 (train_step self (x1, x2) t v).1 (x1, x2) < 1 := sigmoid_lt_one _
        rw [abs_of_pos hq1]
        exact le_of_lt hq2
      nlinarith [abs_nonneg (1 / 4 * gout self (x1, x2) t * oh2 self (x1, x2)),
        abs_nonneg (oh2 (train_step self (x1, x2) t v).1 (x1, x2))]
    linarith
  have hyoutnear : |yout (train_step self (x1, x2) t v).1 (x1, x2) -
      yout self (x1, x2)| ≤ 1 / 1000 := by
    have hdec : yout (train_step self (x1, x2) t v).1 (x1, x2) -
        yout self (x1, x2) =
        1 / 4 * gout self (x1, x2) t +
        (oh1 (train_step self (x1, x2) t v).1 (x1, x2) * c1post self (x1, x2) t -
          oh1 self (x1, x2) * self.w_output.v1) +
        (oh2 (train_step self (x1, x2) t v).1 (x1, x2) * c2post self (x1, x2) t -
          oh2 self (x1, x2) * self.w_output.v2) := by
      have he : yout (train_step self (x1, x2) t v).1 (x1, x2) =
          (self.w_output.v0 + 1 / 4 * gout self (x1, x2) t) +
          oh1 (train_step self (x1, x2) t v).1 (x1, x2) * c1post self (x1, x2) t +
          oh2 (train_step self (x1, x2) t v).1 (x1, x2) * c2post self (x1, x2) t := by
        show yout (train_step self (x1, x2) t v).1 (x1, x2) = _
        unfold yout
        rw [train_step_w_output_v0, train_step_w_output_v1, train_step_w_output_v2, hlr]
      rw [he]
      unfold yout
      ring
    rw [hdec]
    have h0 := abs_quarter hg
    have ha1 := abs_add
      (1 / 4 * gout self (x1, x2) t +
        (oh1 (train_step self (x1, x2) t v).1 (x1, x2) * c1post self (x1, x2) t -
          oh1 self (x1, x2) * self.w_output.v1))
      (oh2 (train_step self (x1, x2) t v).1 (x1, x2) * c2post self (x1, x2) t -
        oh2 self (x1, x2) * self.w_output.v2)
    have ha2 := abs_add (1 / 4 * gout self (x1, x2) t)
      (oh1 (train_step self (x1, x2) t v).1 (x1, x2) * c1post self (x1, x2) t -
        oh1 self (x1, x2) * self.w_output.v1)
    linarith
  refine ⟨hdh, hdo, ?_⟩
  have hfst : (forward_pass (train_step self (x1, x2) t v).1 (x1, x2)).1 =
      oout (train_step self (x1, x2) t v).1 (x1, x2) :=
    forward_pass_fst _ _
  have habs := abs_le.mp hyoutnear
  rcases hyt with ⟨hy, ht0⟩ | ⟨hy, ht1⟩
  · have hneg : yout (train_step self (x1, x2) t v).1 (x1, x2) < 0 := by linarith
    have hlt : oout (train_step self (x1, x2) t v).1 (x1, x2) < 1 / 2 :=
      sigmoid_lt_half _ hneg
    rw [hfst, if_neg (not_lt.mpr (le_of_lt hlt)), ht0]
  · have hpos : 0 < yout (train_step self (x1, x2) t v).1 (x1, x2) := by linarith
    have hgt : 1 / 2 < oout (train_step self (x1, x2) t v).1 (x1, x2) :=
      half_lt_sigmoid _ hpos
    rw [hfst, if_pos hgt, ht1]

end XORNeuralNetwork

namespace XORNeuralNetwork

/-! ### Interval-arithmetic helpers with small contexts -/

/-- Product window for a near-one factor times a factor in a positive
window. -/
theorem mul_window_pos (s c a b : ℝ) (hsl : 1 - 1 / 250000 ≤ s) (hsu : s ≤ 1)
    (hcl : a ≤ c) (hcu : c ≤ b) (ha : 0 ≤ a) :
    (1 - 1 / 250000) * a ≤ s * c ∧ s * c ≤ b := by
  constructor
  · exact mul_le_mul hsl hcl ha (by linarith)
  · nlinarith [mul_nonneg (sub_nonneg.mpr hsu) (show (0 : ℝ) ≤ c by linarith)]

/-- Product window for a near-one factor times a factor in a negative
window. -/
theorem mul_window_neg (s c a b : ℝ) (hsl : 1 - 1 / 250000 ≤ s) (hsu : s ≤ 1)
    (hcl : a ≤ c) (hcu : c ≤ b) (hb : b ≤ 0) :
    a ≤ s * c ∧ s * c ≤ (1 - 1 / 250000) * b := by
  constructor
  · nlinarith [mul_nonneg (sub_nonneg.mpr hsu) (show (0 : ℝ) ≤ -c by linarith)]
  · nlinarith [mul_nonneg (sub_nonneg.mpr hsl) (show (0 : ℝ) ≤ -c by linarith),
      mul_nonneg (show (0 : ℝ) ≤ 1 - 1 / 250000 by norm_num)
        (show (0 : ℝ) ≤ b - c by linarith)]

/-- Two-sided window for `o * o * (1 - o)` from a window on `o`. -/
theorem cube_window (o a b : ℝ) (hal : a ≤ o) (hau : o ≤ b) (ha0 : 0 ≤ a)
    (hb1 : b ≤ 1) :
    a * a * (1 - b) ≤ o * o * (1 - o) ∧ o * o * (1 - o) ≤ b * b * (1 - a) := by
  have ho0 : 0 ≤ o := le_trans ha0 hal
  have hb0 : 0 ≤ b := le_trans ho0 hau
  have hsql : a * a ≤ o * o := mul_le_mul hal hal ha0 ho0
  have hsqu : o * o ≤ b * b := mul_le_mul hau hau ho0 hb0
  constructor
  · exact mul_le_mul hsql (by linarith) (by linarith) (mul_nonneg ho0 ho0)
  · exact mul_le_mul hsqu (by linarith) (by linarith) (mul_nonneg hb0 hb0)

/-- A hidden gradient `g * c * (s * (1 - s))` with a saturated unit
activation `s` is tiny. -/
theorem small_hidden_grad {g c s : ℝ} (hg : |g| ≤ 0.15) (hc : |c| ≤ 32)
    (hs0 : 0 < s) (hs1 : s < 1) (hsl : 1 - 1 / 250000 ≤ s) :
    |g * c * (s * (1 - s))| ≤ 1 / 50000 := by
  have hss0 : 0 ≤ s * (1 - s) := mul_nonneg (le_of_lt hs0) (by linarith)
  have hss : s * (1 - s) ≤ 1 / 250000 := by
    nlinarith [mul_nonneg (le_of_lt hs0)
        (show (0 : ℝ) ≤ 1 / 250000 - (1 - s) by linarith),
      mul_nonneg (show (0 : ℝ) ≤ 1 - s by linarith)
        (show (0 : ℝ) ≤ 1 / 250000 by norm_num)]
  have h1 : |g * c| ≤ 0.15 * 32 := by
    rw [abs_mul]
    exact mul_le_mul hg hc (abs_nonneg _) (by norm_num)
  rw [abs_mul, abs_of_nonneg hss0]
  calc |g * c| * (s * (1 - s)) ≤ 0.15 * 32 * (1 / 250000) :=
        mul_le_mul h1 hss hss0 (by norm_num)
    _ ≤ 1 / 50000 := by norm_num

/-! ### The three quiet rows of an epoch of the `netC2` run -/

/-- Row `((0,0), 0)` is a quiet step whenever the state is in the
coarse box: both hidden units and the output are saturated low. -/
theorem quiet_row1 (self : XORNeuralNetwork) (v : Bool) (hG : GBox self) :
    HidDelta self (train_step self (0, 0) 0 v).1 (1 / 10000) ∧
    OutDelta self (train_step self (0, 0) 0 v).1 (1 / 10000) ∧
    ((if (forward_pass (train_step self (0, 0) 0 v).1 (0, 0)).1 > 1 / 2
      then (1 : ℝ) else 0) = 0) := by
  obtain ⟨hlr, hA0l, hA0u, hA1l, hA1u, hA2l, hA2u, hB0l, hB0u, hB1l, hB1u,
    hB2l, hB2u, hC0l, hC0u, hC1l, hC1u, hC2l, hC2u⟩ := hG
  have hy1e : yh1 self (0, 0) = self.w_hidden_1.v0 := by
    unfold yh1
    norm_num
  have hy2e : yh2 self (0, 0) = self.w_hidden_2.v0 := by
    unfold yh2
    norm_num
  have hs1u : oh1 self (0, 0) ≤ 1 / 250000 :=
    sigmoid_band_lo18 (by rw [hy1e]; linarith)
  have hs1p : 0 < oh1 self (0, 0) := sigmoid_pos _
  have hs2p : 0 < oh2 self (0, 0) := sigmoid_pos _
  have hp1u : oh1 self (0, 0) * self.w_output.v1 ≤ 1 / 250000 * 30.001 :=
    mul_le_mul hs1u hC1u (by linarith) (by norm_num)
  have hp2u : oh2 self (0, 0) * self.w_output.v2 ≤ 0 := by
    have k1 := mul_pos hs2p (show (0 : ℝ) < -self.w_output.v2 by linarith)
    linarith only [k1]
  have hye : yout self (0, 0) = self.w_output.v0 +
      oh1 self (0, 0) * self.w_output.v1 +
      oh2 self (0, 0) * self.w_output.v2 := rfl
  have hyu : yout self (0, 0) ≤ -14 := by
    rw [hye]
    linarith only [hC0u, hp1u, hp2u]
  exact quiet_step self 0 0 0 v hlr le_rfl (by norm_num) le_rfl (by norm_num)
    (abs_le.mpr ⟨by linarith, by linarith⟩)
    (abs_le.mpr ⟨by linarith, by linarith⟩)
    (Or.inl (by rw [hy1e]; linarith))
    (Or.inl (by rw [hy2e]; linarith))
    (Or.inl ⟨hyu, rfl⟩)

/-- Row `((0,1), 1)` is a quiet step whenever the state is in the
coarse box: the OR unit fires, the AND unit does not, the output is
saturated high. -/
theorem quiet_row2 (self : XORNeuralNetwork) (v : Bool) (hG : GBox self) :
    HidDelta self (train_step self (0, 1) 1 v).1 (1 / 10000) ∧
    OutDelta self (train_step self (0, 1) 1 v).1 (1 / 10000) ∧
    ((if (forward_pass (train_step self (0, 1) 1 v).1 (0, 1)).1 > 1 / 2
      then (1 : ℝ) else 0) = 1) := by
  obtain ⟨hlr, hA0l, hA0u, hA1l, hA1u, hA2l, hA2u, hB0l, hB0u, hB1l, hB1u,
    hB2l, hB2u, hC0l, hC0u, hC1l, hC1u, hC2l, hC2u⟩ := hG
  have hy1e : yh1 self (0, 1) = self.w_hidden_1.v0 + self.w_hidden_1.v2 := by
    unfold yh1
    norm_num
  have hy2e : yh2 self (0, 1) = self.w_hidden_2.v0 + self.w_hidden_2.v2 := by
    unfold yh2
    norm_num
  have hs1l : 1 - 1 / 250000 ≤ oh1 self (0, 1) :=
    sigmoid_band_hi18 (by rw [hy1e]; linarith)
  have hs1u : oh1 self (0, 1) ≤ 1 := sigmoid_le_one _
  have hs2u : oh2 self (0, 1) ≤ 1 / 250000 :=
    sigmoid_band_lo18 (by rw [hy2e]; linarith)
  have hs2p : 0 < oh2 self (0, 1) := sigmoid_pos _
  have hp1 := mul_window_pos (oh1 self (0, 1)) (self.w_output.v1) 29.93 30.001
    hs1l hs1u hC1l hC1u (by norm_num)
  have hp2l : -(1 / 250000 * 14.92) ≤ oh2 self (0, 1) * self.w_output.v2 := by
    have k1 := mul_le_mul_of_nonneg_left hC2l (le_of_lt hs2p)
    have k2 := mul_le_mul_of_nonneg_right hs2u (show (0 : ℝ) ≤ 14.92 by norm_num)
    linarith only [k1, k2]
  have hye : yout self (0, 1) = self.w_output.v0 +
      oh1 self (0, 1) * self.w_output.v1 +
      oh2 self (0, 1) * self.w_output.v2 := rfl
  have hyl : 14 ≤ yout self (0, 1) := by
    rw [hye]
    linarith only [hC0l, hp1.1, hp2l]
  exact quiet_step self 0 1 1 v hlr le_rfl (by norm_num) (by norm_num) le_rfl
    (abs_le.mpr ⟨by linarith, by linarith⟩)
    (abs_le.mpr ⟨by linarith, by linarith⟩)
    (Or.inr (by rw [hy1e]; linarith))
    (Or.inl (by rw [hy2e]; linarith))
    (Or.inr ⟨hyl, rfl⟩)

/-- Row `((1,0), 1)` is a quiet step whenever the state is in the
coarse box; symmetric to row `((0,1), 1)`. -/
theorem quiet_row3 (self : XORNeuralNetwork) (v : Bool) (hG : GBox self) :
    HidDelta self (train_step self (1, 0) 1 v).1 (1 / 10000) ∧
    OutDelta self (train_step self (1, 0) 1 v).1 (1 / 10000) ∧
    ((if (forward_pass (train_step self (1, 0) 1 v).1 (1, 0)).1 > 1 / 2
      then (1 : ℝ) else 0) = 1) := by
  obtain ⟨hlr, hA0l, hA0u, hA1l, hA1u, hA2l, hA2u, hB0l, hB0u, hB1l, hB1u,
    hB2l, hB2u, hC0l, hC0u, hC1l, hC1u, hC2l, hC2u⟩ := hG
  have hy1e : yh1 self (1, 0) = self.w_hidden_1.v0 + self.w_hidden_1.v1 := by
    unfold yh1
    norm_num
  have hy2e : yh2 self (1, 0) = self.w_hidden_2.v0 + self.w_hidden_2.v1 := by
    unfold yh2
    norm_num
  have hs1l : 1 - 1 / 250000 ≤ oh1 self (1, 0) :=
    sigmoid_band_hi18 (by rw [hy1e]; linarith)
  have hs1u : oh1 self (1, 0) ≤ 1 := sigmoid_le_one _
  have hs2u : oh2 self (1, 0) ≤ 1 / 250000 :=
    sigmoid_band_lo18 (by rw [hy2e]; linarith)
  have hs2p : 0 < oh2 self (1, 0) := sigmoid_pos _
  have hp1 := mul_window_pos (oh1 self (1, 0)) (self.w_output.v1) 29.93 30.001
    hs1l hs1u hC1l hC1u (by norm_num)
  have hp2l : -(1 / 250000 * 14.92) ≤ oh2 self (1, 0) * self.w_output.v2 := by
    have k1 := mul_le_mul_of_nonneg_left hC2l (le_of_lt hs2p)
    have k2 := mul_le_mul_of_nonneg_right hs2u (show (0 : ℝ) ≤ 14.92 by norm_num)
    linarith only [k1, k2]
  have hye : yout self (1, 0) = self.w_output.v0 +
      oh1 self (1, 0) * self.w_output.v1 +
      oh2 self (1, 0) * self.w_output.v2 := rfl
  have hyl : 14 ≤ yout self (1, 0) := by
    rw [hye]
    linarith only [hC0l, hp1.1, hp2l]
  exact quiet_step self 1 0 1 v hlr (by norm_num) le_rfl le_rfl (by norm_num)
    (abs_le.mpr ⟨by linarith, by linarith⟩)
    (abs_le.mpr ⟨by linarith, by linarith⟩)
    (Or.inr (by rw [hy1e]; linarith))
    (Or.inl (by rw [hy2e]; linarith))
    (Or.inr ⟨hyl, rfl⟩)

end XORNeuralNetwork

namespace XORNeuralNetwork

set_option maxHeartbeats 1600000 in
/-- The "active" training step on example `((1,1), 0)` of the run from
`netC2`: with the hidden units saturated high and the output weights in
the windows `[c0l,c0u]`, `[c1l,c1u]`, `[c2l,c2u]`, the output
pre-activation lies in `[ylo, yhi]`, the output gradient in
`[glo, ghi]`, each output weight moves by a quarter of the gradient
scaled by the unit activation, the hidden weights move by at most
`1/10000`, and the example's output pre-activation after the step lies
in `[ylo2, yhi2]`.  All window endpoints are rational parameters whose
compatibility conditions are discharged numerically at the two
instantiations. -/
theorem active_step (self : XORNeuralNetwork) (v : Bool)
    (c0l c0u c1l c1u c2l c2u ylo yhi glo ghi ylo2 yhi2 : ℝ)
    (hlr : self.learning_rate = 1 / 4)
    (hA0l : -20.001 ≤ self.w_hidden_1.v0) (hA0u : self.w_hidden_1.v0 ≤ -19.999)
    (hA1l : 39.999 ≤ self.w_hidden_1.v1) (hA1u : self.w_hidden_1.v1 ≤ 40.001)
    (hA2l : 39.999 ≤ self.w_hidden_1.v2) (hA2u : self.w_hidden_1.v2 ≤ 40.001)
    (hB0l : -60.001 ≤ self.w_hidden_2.v0) (hB0u : self.w_hidden_2.v0 ≤ -59.999)
    (hB1l : 39.999 ≤ self.w_hidden_2.v1) (hB1u : self.w_hidden_2.v1 ≤ 40.001)
    (hB2l : 39.999 ≤ self.w_hidden_2.v2) (hB2u : self.w_hidden_2.v2 ≤ 40.001)
    (hC0l : c0l ≤ self.w_output.v0) (hC0u : self.w_output.v0 ≤ c0u)
    (hC1l : c1l ≤ self.w_output.v1) (hC1u : self.w_output.v1 ≤ c1u)
    (hC2l : c2l ≤ self.w_output.v2) (hC2u : self.w_output.v2 ≤ c2u)
    (hc1lb : 29 ≤ c1l) (hc1ub : c1u ≤ 31)
    (hc2ub : c2u ≤ -14) (hc2lb : -15.1 ≤ c2l)
    (hc0lb : -15.1 ≤ c0l) (hc0ub : c0u ≤ -14.9)
    (hylo : ylo ≤ c0l + (1 - 1 / 250000) * c1l + c2l)
    (hyhi : c0u + c1u + (1 - 1 / 250000) * c2u ≤ yhi)
    (hylo0 : 0 < ylo) (hyhi1 : yhi ≤ 1 / 2)
    (hglo : glo ≤ -(1 / (2 - yhi) * (1 / (2 - yhi)) *
      (1 - (1 + ylo) / (2 + ylo))))
    (hghi : -((1 + ylo) / (2 + ylo) * ((1 + ylo) / (2 + ylo)) *
      (1 - 1 / (2 - yhi))) ≤ ghi)
    (hgneg : ghi ≤ 0) (hglob : -0.15 ≤ glo)
    (hy2lo : ylo2 ≤ (c0l + glo / 4) + (1 - 1 / 250000) * (c1l + glo / 4) +
      (c2l + glo / 4))
    (hy2hi : (c0u + ghi / 4) + (c1u + ghi * (1 - 1 / 250000) / 4) +
      (1 - 1 / 250000) * (c2u + ghi * (1 - 1 / 250000) / 4) ≤ yhi2) :
    HidDelta self (train_step self (1, 1) 0 v).1 (1 / 10000) ∧
    (glo / 4 ≤ (train_step self (1, 1) 0 v).1.w_output.v0 - self.w_output.v0 ∧
      (train_step self (1, 1) 0 v).1.w_output.v0 - self.w_output.v0 ≤ ghi / 4) ∧
    (glo / 4 ≤ (train_step self (1, 1) 0 v).1.w_output.v1 - self.w_output.v1 ∧
      (train_step self (1, 1) 0 v).1.w_output.v1 - self.w_output.v1 ≤
        ghi * (1 - 1 / 250000) / 4) ∧
    (glo / 4 ≤ (train_step self (1, 1) 0 v).1.w_output.v2 - self.w_output.v2 ∧
      (train_step self (1, 1) 0 v).1.w_output.v2 - self.w_output.v2 ≤
        ghi * (1 - 1 / 250000) / 4) ∧
    ylo2 ≤ yout (train_step self (1, 1) 0 v).1 (1, 1) ∧
    yout (train_step self (1, 1) 0 v).1 (1, 1) ≤ yhi2 := by
  -- hidden pre-activations of the current state, saturated high
  have hy1e : yh1 self (1, 1) =
      self.w_hidden_1.v0 + self.w_hidden_1.v1 + self.w_hidden_1.v2 := by
    unfold yh1
    norm_num
  have hy2e : yh2 self (1, 1) =
      self.w_hidden_2.v0 + self.w_hidden_2.v1 + self.w_hidden_2.v2 := by
    unfold yh2
    norm_num
  have hs1l : 1 - 1 / 250000 ≤ oh1 self (1, 1) :=
    sigmoid_band_hi18 (by rw [hy1e]; linarith only [hA0l, hA1l, hA2l])
  have hs2l : 1 - 1 / 250000 ≤ oh2 self (1, 1) :=
    sigmoid_band_hi18 (by rw [hy2e]; linarith only [hB0l, hB1l, hB2l])
  have hs1u : oh1 self (1, 1) ≤ 1 := sigmoid_le_one _
  have hs2u : oh2 self (1, 1) ≤ 1 := sigmoid_le_one _
  have hs1p : 0 < oh1 self (1, 1) := sigmoid_pos _
  have hs2p : 0 < oh2 self (1, 1) := sigmoid_pos _
  have hoa : 0 < oout self (1, 1) := sigmoid_pos _
  -- output pre-activation window
  have hp1 := mul_window_pos (oh1 self (1, 1)) (self.w_output.v1) c1l c1u
    hs1l hs1u hC1l hC1u (by linarith only [hc1lb])
  have hp2 := mul_window_neg (oh2 self (1, 1)) (self.w_output.v2) c2l c2u
    hs2l hs2u hC2l hC2u (by linarith only [hc2ub])
  have hye : yout self (1, 1) = self.w_output.v0 +
      oh1 self (1, 1) * self.w_output.v1 +
      oh2 self (1, 1) * self.w_output.v2 := rfl
  have hywl : ylo ≤ yout self (1, 1) := by
    rw [hye]
    linarith only [hylo, hC0l, hp1.1, hp2.1]
  have hywu : yout self (1, 1) ≤ yhi := by
    rw [hye]
    linarith only [hyhi, hC0u, hp1.2, hp2.2]
  -- output activation window
  have ho_l : (1 + ylo) / (2 + ylo) ≤ oout self (1, 1) :=
    ratio_le_sigmoid hywl (by linarith only [hywl, hywu, hyhi1])
      (le_of_lt hylo0)
  have ho_u : oout self (1, 1) ≤ 1 / (2 - yhi) :=
    sigmoid_le_ratio hywu (by linarith only [hyhi1])
      (by linarith only [hylo0, hywl, hywu])
  have hO1pos : (0 : ℝ) < (1 + ylo) / (2 + ylo) :=
    div_pos (by linarith only [hylo0]) (by linarith only [hylo0])
  have hO2le1 : 1 / (2 - yhi) ≤ 1 := by
    rw [div_le_one (by linarith only [hyhi1])]
    linarith only [hyhi1]
  -- gradient window
  have hge : gout self (1, 1) 0 =
      -(oout self (1, 1) * oout self (1, 1) * (1 - oout self (1, 1))) := by
    unfold gout
    ring
  have hcw := cube_window (oout self (1, 1)) ((1 + ylo) / (2 + ylo))
    (1 / (2 - yhi)) ho_l ho_u (le_of_lt hO1pos) hO2le1
  have hgwl : glo ≤ gout self (1, 1) 0 := by
    rw [hge]
    linarith only [hglo, hcw.2]
  have hgwu : gout self (1, 1) 0 ≤ ghi := by
    rw [hge]
    linarith only [hghi, hcw.1]
  have hgub : |gout self (1, 1) 0| ≤ 0.15 :=
    abs_le.mpr ⟨by linarith only [hglob, hgwl], by linarith only [hgwu, hgneg]⟩
  -- output weight movements
  have hv0e : (train_step self (1, 1) 0 v).1.w_output.v0 =
      self.w_output.v0 + 1 / 4 * gout self (1, 1) 0 := by
    rw [train_step_w_output_v0, hlr]
  have hv1e : (train_step self (1, 1) 0 v).1.w_output.v1 =
      self.w_output.v1 + 1 / 4 * gout self (1, 1) 0 * oh1 self (1, 1) := by
    rw [train_step_w_output_v1]
    unfold c1post
    rw [hlr]
  have hv2e : (train_step self (1, 1) 0 v).1.w_output.v2 =
      self.w_output.v2 + 1 / 4 * gout self (1, 1) 0 * oh2 self (1, 1) := by
    rw [train_step_w_output_v2]
    unfold c2post
    rw [hlr]
  have hgs1 := mul_window_neg (oh1 self (1, 1)) (gout self (1, 1) 0) glo ghi
    hs1l hs1u hgwl hgwu hgneg
  have hgs2 := mul_window_neg (oh2 self (1, 1)) (gout self (1, 1) 0) glo ghi
    hs2l hs2u hgwl hgwu hgneg
  have hdo0 : glo / 4 ≤ (train_step self (1, 1) 0 v).1.w_output.v0 -
      self.w_output.v0 ∧
      (train_step self (1, 1) 0 v).1.w_output.v0 - self.w_output.v0 ≤
        ghi / 4 := by
    rw [hv0e]
    constructor
    · linarith only [hgwl]
    · linarith only [hgwu]
  have hdo1 : glo / 4 ≤ (train_step self (1, 1) 0 v).1.w_output.v1 -
      self.w_output.v1 ∧
      (train_step self (1, 1) 0 v).1.w_output.v1 - self.w_output.v1 ≤
        ghi * (1 - 1 / 250000) / 4 := by
    rw [hv1e]
    constructor
    · linarith only [hgs1.1]
    · linarith only [hgs1.2]
  have hdo2 : glo / 4 ≤ (train_step self (1, 1) 0 v).1.w_output.v2 -
      self.w_output.v2 ∧
      (train_step self (1, 1) 0 v).1.w_output.v2 - self.w_output.v2 ≤
        ghi * (1 - 1 / 250000) / 4 := by
    rw [hv2e]
    constructor
    · linarith only [hgs2.1]
    · linarith only [hgs2.2]
  -- the hidden gradients are tiny
  have hc1pb : |c1post self (1, 1) 0| ≤ 32 := by
    have he1 : c1post self (1, 1) 0 =
        self.w_output.v1 + 1 / 4 * gout self (1, 1) 0 * oh1 self (1, 1) := by
      unfold c1post
      rw [hlr]
    rw [he1, abs_le]
    constructor
    · linarith only [hC1l, hc1lb, hgs1.1, hglob]
    · linarith only [hC1u, hc1ub, hgs1.2, hgneg]
  have hc2pb : |c2post self (1, 1) 0| ≤ 32 := by
    have he2 : c2post self (1, 1) 0 =
        self.w_output.v2 + 1 / 4 * gout self (1, 1) 0 * oh2 self (1, 1) := by
      unfold c2post
      rw [hlr]
    rw [he2, abs_le]
    constructor
    · linarith only [hC2l, hc2lb, hgs2.1, hglob]
    · linarith only [hC2u, hc2ub, hgs2.2, hgneg]
  have hgh1b : |gh1 self (1, 1) 0| ≤ 1 / 50000 := by
    have hexp1 : gh1 self (1, 1) 0 = gout self (1, 1) 0 * c1post self (1, 1) 0 *
        (oh1 self (1, 1) * (1 - oh1 self (1, 1))) := by
      unfold gh1
      ring
    rw [hexp1]
    exact small_hidden_grad hgub hc1pb hs1p (sigmoid_lt_one _) hs1l
  have hgh2b : |gh2 self (1, 1) 0| ≤ 1 / 50000 := by
    have hexp2 : gh2 self (1, 1) 0 = gout self (1, 1) 0 * c2post self (1, 1) 0 *
        (oh2 self (1, 1) * (1 - oh2 self (1, 1))) := by
      unfold gh2
      ring
    rw [hexp2]
    exact small_hidden_grad hgub hc2pb hs2p (sigmoid_lt_one _) hs2l
  have hdh : HidDelta self (train_step self (1, 1) 0 v).1 (1 / 10000) := by
    refine ⟨?_, ?_, ?_, ?_, ?_, ?_⟩
    · rw [train_step_w_hidden_1_v0, hlr, add_sub_cancel_left]
      exact le_trans (abs_quarter hgh1b) (by norm_num)
    · rw [train_step_w_hidden_1_v1, hlr, add_sub_cancel_left]
      exact le_trans (abs_quarter_mul hgh1b (by norm_num) (by norm_num)
        (by norm_num)) (by norm_num)
    · rw [train_step_w_hidden_1_v2, hlr, add_sub_cancel_left]
      exact le_trans (abs_quarter_mul hgh1b (by norm_num) (by norm_num)
        (by norm_num)) (by norm_num)
    · rw [train_step_w_hidden_2_v0, hlr, add_sub_cancel_left]
      exact le_trans (abs_quarter hgh2b) (by norm_num)
    · rw [train_step_w_hidden_2_v1, hlr, add_sub_cancel_left]
      exact le_trans (abs_quarter_mul hgh2b (by norm_num) (by norm_num)
        (by norm_num)) (by norm_num)
    · rw [train_step_w_hidden_2_v2, hlr, add_sub_cancel_left]
      exact le_trans (abs_quarter_mul hgh2b (by norm_num) (by norm_num)
        (by norm_num)) (by norm_num)
  -- post-step hidden activations remain saturated
  obtain ⟨hdA0, hdA1, hdA2, hdB0, hdB1, hdB2⟩ := hdh
  have p1 := abs_le.mp hdA0
  have p2 := abs_le.mp hdA1
  have p3 := abs_le.mp hdA2
  have q1 := abs_le.mp hdB0
  have q2 := abs_le.mp hdB1
  have q3 := abs_le.mp hdB2
  have hyh1post : yh1 (train_step self (1, 1) 0 v).1 (1, 1) =
      (train_step self (1, 1) 0 v).1.w_hidden_1.v0 +
      (train_step self (1, 1) 0 v).1.w_hidden_1.v1 +
      (train_step self (1, 1) 0 v).1.w_hidden_1.v2 := by
    unfold yh1
    norm_num
  have hyh2post : yh2 (train_step self (1, 1) 0 v).1 (1, 1) =
      (train_step self (1, 1) 0 v).1.w_hidden_2.v0 +
      (train_step self (1, 1) 0 v).1.w_hidden_2.v1 +
      (train_step self (1, 1) 0 v).1.w_hidden_2.v2 := by
    unfold yh2
    norm_num
  have hs1l' : 1 - 1 / 250000 ≤ oh1 (train_step self (1, 1) 0 v).1 (1, 1) :=
    sigmoid_band_hi18 (by
      rw [hyh1post]
      linarith only [p1.1, p2.1, p3.1, hA0l, hA1l, hA2l])
  have hs2l' : 1 - 1 / 250000 ≤ oh2 (train_step self (1, 1) 0 v).1 (1, 1) :=
    sigmoid_band_hi18 (by
      rw [hyh2post]
      linarith only [q1.1, q2.1, q3.1, hB0l, hB1l, hB2l])
  have hs1u' : oh1 (train_step self (1, 1) 0 v).1 (1, 1) ≤ 1 := sigmoid_le_one _
  have hs2u' : oh2 (train_step self (1, 1) 0 v).1 (1, 1) ≤ 1 := sigmoid_le_one _
  -- post-step output weight windows
  have hw0l : c0l + glo / 4 ≤ (train_step self (1, 1) 0 v).1.w_output.v0 := by
    linarith only [hdo0.1, hC0l]
  have hw0u : (train_step self (1, 1) 0 v).1.w_output.v0 ≤ c0u + ghi / 4 := by
    linarith only [hdo0.2, hC0u]
  have hw1l : c1l + glo / 4 ≤ (train_step self (1, 1) 0 v).1.w_output.v1 := by
    linarith only [hdo1.1, hC1l]
  have hw1u : (train_step self (1, 1) 0 v).1.w_output.v1 ≤
      c1u + ghi * (1 - 1 / 250000) / 4 := by
    linarith only [hdo1.2, hC1u]
  have hw2l : c2l + glo / 4 ≤ (train_step self (1, 1) 0 v).1.w_output.v2 := by
    linarith only [hdo2.1, hC2l]
  have hw2u : (train_step self (1, 1) 0 v).1.w_output.v2 ≤
      c2u + ghi * (1 - 1 / 250000) / 4 := by
    linarith only [hdo2.2, hC2u]
  -- post-step output pre-activation window
  have hq1 := mul_window_pos (oh1 (train_step self (1, 1) 0 v).1 (1, 1))
    ((train_step self (1, 1) 0 v).1.w_output.v1)
    (c1l + glo / 4) (c1u + ghi * (1 - 1 / 250000) / 4)
    hs1l' hs1u' hw1l hw1u (by linarith only [hc1lb, hglob])
  have hq2 := mul_window_neg (oh2 (train_step self (1, 1) 0 v).1 (1, 1))
    ((train_step self (1, 1) 0 v).1.w_output.v2)
    (c2l + glo / 4) (c2u + ghi * (1 - 1 / 250000) / 4)
    hs2l' hs2u' hw2l hw2u (by linarith only [hc2ub, hgneg])
  have hyoutpost : yout (train_step self (1, 1) 0 v).1 (1, 1) =
      (train_step self (1, 1) 0 v).1.w_output.v0 +
      oh1 (train_step self (1, 1) 0 v).1 (1, 1) *
        (train_step self (1, 1) 0 v).1.w_output.v1 +
      oh2 (train_step self (1, 1) 0 v).1 (1, 1) *
        (train_step self (1, 1) 0 v).1.w_output.v2 := rfl
  refine ⟨⟨hdA0, hdA1, hdA2, hdB0, hdB1, hdB2⟩, hdo0, hdo1, hdo2, ?_, ?_⟩
  · rw [hyoutpost]
    linarith only [hy2lo, hw0l, hq1.1, hq2.1]
  · rw [hyoutpost]
    linarith only [hy2hi, hw0u, hq1.2, hq2.2]

end XORNeuralNetwork

namespace XORNeuralNetwork

/-- A state within `3/10000` of `netC2` (in every weight component) is
in the coarse box. -/
theorem GBox_near (m : XORNeuralNetwork) (k : ℝ) (hk0 : 0 ≤ k)
    (hk : k ≤ 3 / 10000) (hlrm : m.learning_rate = 1 / 4)
    (hh : HidDelta netC2 m k) (ho : OutDelta netC2 m k) : GBox m := by
  obtain ⟨d1, d2, d3, d4, d5, d6⟩ := hh
  obtain ⟨e1, e2, e3⟩ := ho
  simp only [netC2] at d1 d2 d3 d4 d5 d6 e1 e2 e3
  have f1 := abs_le.mp d1
  have f2 := abs_le.mp d2
  have f3 := abs_le.mp d3
  have f4 := abs_le.mp d4
  have f5 := abs_le.mp d5
  have f6 := abs_le.mp d6
  have g1 := abs_le.mp e1
  have g2 := abs_le.mp e2
  have g3 := abs_le.mp e3
  exact ⟨hlrm,
    by linarith [f1.1], by linarith [f1.2], by linarith [f2.1], by linarith [f2.2],
    by linarith [f3.1], by linarith [f3.2], by linarith [f4.1], by linarith [f4.2],
    by linarith [f5.1], by linarith [f5.2], by linarith [f6.1], by linarith [f6.2],
    by linarith [g1.1], by linarith [g1.2], by linarith [g2.1], by linarith [g2.2],
    by linarith [g3.1], by linarith [g3.2]⟩

/-- The fine box is contained in the coarse box. -/
theorem GBox_of_Box1 {n : XORNeuralNetwork} (hB : Box1 n) : GBox n := by
  obtain ⟨hl, a1, a2, a3, a4, a5, a6, a7, a8, a9, a10, a11, a12,
    b1, b2, b3, b4, b5, b6⟩ := hB
  exact ⟨hl, by linarith, by linarith, by linarith, by linarith, by linarith,
    by linarith, by linarith, by linarith, by linarith, by linarith, by linarith,
    by linarith, by linarith, by linarith, by linarith, by linarith, by linarith,
    by linarith⟩

/-- A state within `3/10000` of a state in the fine box is in the
coarse box. -/
theorem GBox_near_box1 {n : XORNeuralNetwork} (m : XORNeuralNetwork) (k : ℝ)
    (hk0 : 0 ≤ k) (hk : k ≤ 3 / 10000) (hB : Box1 n)
    (hlrm : m.learning_rate = 1 / 4)
    (hh : HidDelta n m k) (ho : OutDelta n m k) : GBox m := by
  obtain ⟨-, a1, a2, a3, a4, a5, a6, a7, a8, a9, a10, a11, a12,
    b1, b2, b3, b4, b5, b6⟩ := hB
  obtain ⟨d1, d2, d3, d4, d5, d6⟩ := hh
  obtain ⟨e1, e2, e3⟩ := ho
  have f1 := abs_le.mp d1
  have f2 := abs_le.mp d2
  have f3 := abs_le.mp d3
  have f4 := abs_le.mp d4
  have f5 := abs_le.mp d5
  have f6 := abs_le.mp d6
  have g1 := abs_le.mp e1
  have g2 := abs_le.mp e2
  have g3 := abs_le.mp e3
  exact ⟨hlrm,
    by linarith [f1.1], by linarith [f1.2], by linarith [f2.1], by linarith [f2.2],
    by linarith [f3.1], by linarith [f3.2], by linarith [f4.1], by linarith [f4.2],
    by linarith [f5.1], by linarith [f5.2], by linarith [f6.1], by linarith [f6.2],
    by linarith [g1.1], by linarith [g1.2], by linarith [g2.1], by linarith [g2.2],
    by linarith [g3.1], by linarith [g3.2]⟩

/-- Appending metrics does not move the state out of the fine box. -/
theorem Box1_appendMetrics {r : XORNeuralNetwork × ℝ × ℝ} (h : Box1 r.1) :
    Box1 (appendMetrics r) := by
  obtain ⟨hl, a1, a2, a3, a4, a5, a6, a7, a8, a9, a10, a11, a12,
    b1, b2, b3, b4, b5, b6⟩ := h
  refine ⟨?_, ?_, ?_, ?_, ?_, ?_, ?_, ?_, ?_, ?_, ?_, ?_, ?_, ?_, ?_, ?_, ?_,
    ?_, ?_⟩
  · rw [appendMetrics_learning_rate]; exact hl
  · rw [appendMetrics_w_hidden_1]; exact a1
  · rw [appendMetrics_w_hidden_1]; exact a2
  · rw [appendMetrics_w_hidden_1]; exact a3
  · rw [appendMetrics_w_hidden_1]; exact a4
  · rw [appendMetrics_w_hidden_1]; exact a5
  · rw [appendMetrics_w_hidden_1]; exact a6
  · rw [appendMetrics_w_hidden_2]; exact a7
  · rw [appendMetrics_w_hidden_2]; exact a8
  · rw [appendMetrics_w_hidden_2]; exact a9
  · rw [appendMetrics_w_hidden_2]; exact a10
  · rw [appendMetrics_w_hidden_2]; exact a11
  · rw [appendMetrics_w_hidden_2]; exact a12
  · rw [appendMetrics_w_output]; exact b1
  · rw [appendMetrics_w_output]; exact b2
  · rw [appendMetrics_w_output]; exact b3
  · rw [appendMetrics_w_output]; exact b4
  · rw [appendMetrics_w_output]; exact b5
  · rw [appendMetrics_w_output]; exact b6

set_option maxHeartbeats 1600000 in
/-- Row `((1,1), 0)` in epoch 0 of the `netC2` run: from any state
within `3/10000` of `netC2`, the step lands in the fine box and the
example's post-update output pre-activation is positive (so the
prediction `1` is wrong for target `0`). -/
theorem active_step_epoch0 (m : XORNeuralNetwork) (v : Bool) (k : ℝ)
    (hk0 : 0 ≤ k) (hk : k ≤ 3 / 10000) (hlrm : m.learning_rate = 1 / 4)
    (hh : HidDelta netC2 m k) (ho : OutDelta netC2 m k) :
    Box1 (train_step m (1, 1) 0 v).1 ∧
    0 < yout (train_step m (1, 1) 0 v).1 (1, 1) := by
  obtain ⟨d1, d2, d3, d4, d5, d6⟩ := hh
  obtain ⟨e1, e2, e3⟩ := ho
  simp only [netC2] at d1 d2 d3 d4 d5 d6 e1 e2 e3
  have f1 := abs_le.mp d1
  have f2 := abs_le.mp d2
  have f3 := abs_le.mp d3
  have f4 := abs_le.mp d4
  have f5 := abs_le.mp d5
  have f6 := abs_le.mp d6
  have g1 := abs_le.mp e1
  have g2 := abs_le.mp e2
  have g3 := abs_le.mp e3
  have hmain := active_step m v (-15.0003) (-14.9997) 29.9997 30.0003
    (-14.8503) (-14.8497) 0.148 0.151 (-0.1362) (-0.1311) 0.0468 0.0527 hlrm
    (by linarith [f1.1]) (by linarith [f1.2])
    (by linarith [f2.1]) (by linarith [f2.2])
    (by linarith [f3.1]) (by linarith [f3.2])
    (by linarith [f4.1]) (by linarith [f4.2])
    (by linarith [f5.1]) (by linarith [f5.2])
    (by linarith [f6.1]) (by linarith [f6.2])
    (by linarith [g1.1]) (by linarith [g1.2])
    (by linarith [g2.1]) (by linarith [g2.2])
    (by linarith [g3.1]) (by linarith [g3.2])
    (by norm_num) (by norm_num) (by norm_num) (by norm_num)
    (by norm_num) (by norm_num) (by norm_num) (by norm_num)
    (by norm_num) (by norm_num) (by norm_num) (by norm_num)
    (by norm_num) (by norm_num) (by norm_num) (by norm_num)
  obtain ⟨bh, b0, b1, b2, byl, byu⟩ := hmain
  obtain ⟨t1, t2, t3, t4, t5, t6⟩ := bh
  have u1 := abs_le.mp t1
  have u2 := abs_le.mp t2
  have u3 := abs_le.mp t3
  have u4 := abs_le.mp t4
  have u5 := abs_le.mp t5
  have u6 := abs_le.mp t6
  constructor
  · exact ⟨by rw [train_step_learning_rate]; exact hlrm,
      by linarith [u1.1, f1.1], by linarith [u1.2, f1.2],
      by linarith [u2.1, f2.1], by linarith [u2.2, f2.2],
      by linarith [u3.1, f3.1], by linarith [u3.2, f3.2],
      by linarith [u4.1, f4.1], by linarith [u4.2, f4.2],
      by linarith [u5.1, f5.1], by linarith [u5.2, f5.2],
      by linarith [u6.1, f6.1], by linarith [u6.2, f6.2],
      by linarith [b0.1, g1.1], by linarith [b0.2, g1.2],
      by linarith [b1.1, g2.1], by linarith [b1.2, g2.2],
      by linarith [b2.1, g3.1], by linarith [b2.2, g3.2]⟩
  · linarith [byl]

set_option maxHeartbeats 1600000 in
/-- Row `((1,1), 0)` in epoch 1 of the `netC2` run: from any state
within `3/10000` of a state in the fine box, the example's post-update
output pre-activation is negative (so the prediction `0` matches the
target `0`). -/
theorem active_step_epoch1 {n : XORNeuralNetwork} (m : XORNeuralNetwork)
    (v : Bool) (k : ℝ) (hk0 : 0 ≤ k) (hk : k ≤ 3 / 10000) (hB : Box1 n)
    (hlrm : m.learning_rate = 1 / 4)
    (hh : HidDelta n m k) (ho : OutDelta n m k) :
    yout (train_step m (1, 1) 0 v).1 (1, 1) < 0 := by
  obtain ⟨-, a1, a2, a3, a4, a5, a6, a7, a8, a9, a10, a11, a12,
    b1, b2, b3, b4, b5, b6⟩ := hB
  obtain ⟨d1, d2, d3, d4, d5, d6⟩ := hh
  obtain ⟨e1, e2, e3⟩ := ho
  have f1 := abs_le.mp d1
  have f2 := abs_le.mp d2
  have f3 := abs_le.mp d3
  have f4 := abs_le.mp d4
  have f5 := abs_le.mp d5
  have f6 := abs_le.mp d6
  have g1 := abs_le.mp e1
  have g2 := abs_le.mp e2
  have g3 := abs_le.mp e3
  have hmain := active_step m v (-15.0355) (-15.0314) 29.9645 29.9687
    (-14.8848) (-14.8820) 0.044 0.0554 (-0.1294) (-0.1267) (-0.053) (-0.0396)
    hlrm
    (by linarith [f1.1, a1]) (by linarith [f1.2, a2])
    (by linarith [f2.1, a3]) (by linarith [f2.2, a4])
    (by linarith [f3.1, a5]) (by linarith [f3.2, a6])
    (by linarith [f4.1, a7]) (by linarith [f4.2, a8])
    (by linarith [f5.1, a9]) (by linarith [f5.2, a10])
    (by linarith [f6.1, a11]) (by linarith [f6.2, a12])
    (by linarith [g1.1, b1]) (by linarith [g1.2, b2])
    (by linarith [g2.1, b3]) (by linarith [g2.2, b4])
    (by linarith [g3.1, b5]) (by linarith [g3.2, b6])
    (by norm_num) (by norm_num) (by norm_num) (by norm_num)
    (by norm_num) (by norm_num) (by norm_num) (by norm_num)
    (by norm_num) (by norm_num) (by norm_num) (by norm_num)
    (by norm_num) (by norm_num) (by norm_num) (by norm_num)
  linarith [hmain.2.2.2.2.2]

end XORNeuralNetwork

namespace XORNeuralNetwork

set_option maxHeartbeats 1600000 in
/-- Epoch 0 of the run of `train` from `netC2`: rows 1–3 are predicted
correctly, row `(1,1)` is not, so the accuracy is `3/4`; the resulting
state lies in the fine box `Box1`. -/
theorem epoch0_netC2 (v : Bool) :
    (train_epoch netC2 v).2.2 = 3 / 4 ∧ Box1 (train_epoch netC2 v).1 := by
  have hG0 : GBox netC2 := by
    unfold GBox netC2
    norm_num
  obtain ⟨h1, o1, p1⟩ := quiet_row1 netC2 v hG0
  have hL1 : (train_step netC2 (0, 0) 0 v).1.learning_rate = 1 / 4 := by
    rw [train_step_learning_rate]
    rfl
  have hG1 : GBox (train_step netC2 (0, 0) 0 v).1 :=
    GBox_near _ _ (by norm_num) (by norm_num) hL1 h1 o1
  obtain ⟨h2, o2, p2⟩ := quiet_row2 (train_step netC2 (0, 0) 0 v).1 v hG1
  have hh2 := HidDelta_trans h1 h2
  have ho2 := OutDelta_trans o1 o2
  have hL2 : (train_step (train_step netC2 (0, 0) 0 v).1 (0, 1) 1
      v).1.learning_rate = 1 / 4 := by
    rw [train_step_learning_rate]
    exact hL1
  have hG2 : GBox (train_step (train_step netC2 (0, 0) 0 v).1 (0, 1) 1 v).1 :=
    GBox_near _ _ (by norm_num) (by norm_num) hL2 hh2 ho2
  obtain ⟨h3, o3, p3⟩ := quiet_row3
    (train_step (train_step netC2 (0, 0) 0 v).1 (0, 1) 1 v).1 v hG2
  have hh3 := HidDelta_trans hh2 h3
  have ho3 := OutDelta_trans ho2 o3
  have hL3 : (train_step (train_step (train_step netC2 (0, 0) 0 v).1 (0, 1) 1
      v).1 (1, 0) 1 v).1.learning_rate = 1 / 4 := by
    rw [train_step_learning_rate]
    exact hL2
  have hrow4 := active_step_epoch0
    (train_step (train_step (train_step netC2 (0, 0) 0 v).1 (0, 1) 1 v).1
      (1, 0) 1 v).1 v _ (by norm_num) (by norm_num) hL3 hh3 ho3
  have ho4 : oout (train_step (train_step (train_step (train_step netC2 (0, 0)
      0 v).1 (0, 1) 1 v).1 (1, 0) 1 v).1 (1, 1) 0 v).1 (1, 1) > 1 / 2 :=
    half_lt_sigmoid _ hrow4.2
  constructor
  · rw [train_epoch_unfold]
    dsimp only
    rw [p1, p2, p3, forward_pass_fst, if_pos ho4]
    norm_num
  · rw [train_epoch_unfold]
    dsimp only
    exact hrow4.1

set_option maxHeartbeats 1600000 in
/-- Epoch 1 of the run of `train` from `netC2`: from any state in the
fine box all four rows are predicted correctly, so the accuracy is
`1`. -/
theorem epoch1_netC2 (n : XORNeuralNetwork) (v : Bool) (hB : Box1 n) :
    (train_epoch n v).2.2 = 1 := by
  have hG0 : GBox n := GBox_of_Box1 hB
  obtain ⟨h1, o1, p1⟩ := quiet_row1 n v hG0
  have hL1 : (train_step n (0, 0) 0 v).1.learning_rate = 1 / 4 := by
    rw [train_step_learning_rate]
    exact hB.1
  have hG1 : GBox (train_step n (0, 0) 0 v).1 :=
    GBox_near_box1 _ _ (by norm_num) (by norm_num) hB hL1 h1 o1
  obtain ⟨h2, o2, p2⟩ := quiet_row2 (train_step n (0, 0) 0 v).1 v hG1
  have hh2 := HidDelta_trans h1 h2
  have ho2 := OutDelta_trans o1 o2
  have hL2 : (train_step (train_step n (0, 0) 0 v).1 (0, 1) 1
      v).1.learning_rate = 1 / 4 := by
    rw [train_step_learning_rate]
    exact hL1
  have hG2 : GBox (train_step (train_step n (0, 0) 0 v).1 (0, 1) 1 v).1 :=
    GBox_near_box1 _ _ (by norm_num) (by norm_num) hB hL2 hh2 ho2
  obtain ⟨h3, o3, p3⟩ := quiet_row3
    (train_step (train_step n (0, 0) 0 v).1 (0, 1) 1 v).1 v hG2
  have hh3 := HidDelta_trans hh2 h3
  have ho3 := OutDelta_trans ho2 o3
  have hL3 : (train_step (train_step (train_step n (0, 0) 0 v).1 (0, 1) 1
      v).1 (1, 0) 1 v).1.learning_rate = 1 / 4 := by
    rw [train_step_learning_rate]
    exact hL2
  have hy4 := active_step_epoch1
    (train_step (train_step (train_step n (0, 0) 0 v).1 (0, 1) 1 v).1
      (1, 0) 1 v).1 v _ (by norm_num) (by norm_num) hB hL3 hh3 ho3
  have ho4 : ¬ (oout (train_step (train_step (train_step (train_step n (0, 0)
      0 v).1 (0, 1) 1 v).1 (1, 0) 1 v).1 (1, 1) 0 v).1 (1, 1) > 1 / 2) :=
    not_lt.mpr (le_of_lt (sigmoid_lt_half _ hy4))
  rw [train_epoch_unfold]
  dsimp only
  rw [p1, p2, p3, forward_pass_fst, if_neg ho4]
  norm_num

set_option maxHeartbeats 800000 in
/-- Counterexample to claim C2 as stated: in the run of `train` from
`netC2` with 5 epochs and threshold `9/10`, the run stops early at
epoch 1 (its accuracy `1` reaches the threshold, epoch 0's accuracy
`3/4` does not), yet the verbose flag passed to epoch 1 — the step
immediately preceding the early stop — is `false`, since `1` is not
divisible by 1000.  Verbose reporting is enabled only at epoch indices
divisible by 1000. -/
theorem claim_C2_counterexample :
    (train netC2 5 (9 / 10)).2 = [true, false] ∧
    (train netC2 5 (9 / 10)).1.accuracies = [3 / 4, 1] ∧
    ¬ ((3 : ℝ) / 4 ≥ 9 / 10) ∧ ((1 : ℝ) ≥ 9 / 10) ∧ (1 % 1000 ≠ 0) := by
  have h0 := epoch0_netC2 (0 % 1000 == 0)
  have hlt : ¬ (train_epoch netC2 (0 % 1000 == 0)).2.2 ≥ (9 / 10 : ℝ) := by
    rw [h0.1]
    norm_num
  have he1 : trainGo (9 / 10 : ℝ) netC2 0 (4 + 1) =
      ((trainGo (9 / 10) (appendMetrics (train_epoch netC2 (0 % 1000 == 0)))
          (0 + 1) 4).1,
        (0 % 1000 == 0) ::
          (trainGo (9 / 10) (appendMetrics (train_epoch netC2 (0 % 1000 == 0)))
            (0 + 1) 4).2) :=
    trainGo_succ_neg hlt
  have hbox : Box1 (appendMetrics (train_epoch netC2 (0 % 1000 == 0))) :=
    Box1_appendMetrics h0.2
  have h1 := epoch1_netC2 (appendMetrics (train_epoch netC2 (0 % 1000 == 0)))
    ((0 + 1) % 1000 == 0) hbox
  have hge : (train_epoch (appendMetrics (train_epoch netC2 (0 % 1000 == 0)))
      ((0 + 1) % 1000 == 0)).2.2 ≥ (9 / 10 : ℝ) := by
    rw [h1]
    norm_num
  have he2 : trainGo (9 / 10 : ℝ)
      (appendMetrics (train_epoch netC2 (0 % 1000 == 0))) (0 + 1) (3 + 1) =
      (appendMetrics (train_epoch
          (appendMetrics (train_epoch netC2 (0 % 1000 == 0)))
          ((0 + 1) % 1000 == 0)),
        [(0 + 1) % 1000 == 0]) :=
    trainGo_succ_pos hge
  have he2' : trainGo (9 / 10 : ℝ)
      (appendMetrics (train_epoch netC2 (0 % 1000 == 0))) (0 + 1) 4 =
      (appendMetrics (train_epoch
          (appendMetrics (train_epoch netC2 (0 % 1000 == 0)))
          ((0 + 1) % 1000 == 0)),
        [(0 + 1) % 1000 == 0]) := he2
  have htr : train netC2 5 (9 / 10) = trainGo (9 / 10 : ℝ) netC2 0 (4 + 1) :=
    rfl
  refine ⟨?_, ?_, by norm_num, by norm_num, by norm_num⟩
  · rw [htr, he1]
    dsimp only
    rw [he2']
    dsimp only
    decide
  · rw [htr, he1]
    dsimp only
    rw [he2']
    dsimp only
    rw [appendMetrics_accuracies, train_epoch_accuracies,
      appendMetrics_accuracies, train_epoch_accuracies, h0.1, h1]
    rfl

end XORNeuralNetwork
